import Mathlib

/-!
# Shader compile / link pipeline of the GUI (`gl_shader.cpp`, `gl_shader.h`)

A shallow embedding of `compile_parse_shader_errors`, `gl_compile_shader` and
`gl_link_shaders`, followed by the properties proved about them.

Conventions of the embedding

* `std::string` and `fs::path` are `String`; positions are `Nat`; the sentinel
  `std::string::npos` is `none` (it is larger than the size of every string).
* `int32_t` / `int` values are `Int` kept in range by `toInt32`, `uint32_t`
  values are `Nat` kept in range by `% 2 ^ 32`.
* A `try { .. } catch (...)` body is a function into `Except`, the error side
  carrying the message as it was when the exception left the body.
* The OpenGL backend and the file system are records of the answers they give
  during one call; every call made to them is written to a trace.
* `std::shared_ptr<GLCompileResult>` arguments of the linker are addresses into
  an explicit heap.
* The one allocation that the backend's answer can make fail, the log buffer
  `std::vector<char>(InfoLogLength + 1)`, throws when its size wraps; the
  compiler catches the exception, the linker lets it through.
-/

namespace SonicPi

/-! ## Data model (`gl_shader.h`) -/

inductive ShaderType where
  | Unknown
  | Pixel
  | Vertex
  | Geometry
  | Compute
  deriving DecidableEq, Repr

structure ShaderFragment where
  name : String
  source : String
  deriving DecidableEq, Repr

structure ShaderPackage where
  fragments : List ShaderFragment := []
  mainFragment : Nat := 0
  path : String
  deriving DecidableEq, Repr

inductive CompileMessageType where
  | Warning
  | Error
  | Info
  deriving DecidableEq, Repr

/-- The record `CompileMessage`; the defaults are the member initialisers. -/
structure CompileMessage where
  rawText : String := ""
  text : String := ""
  filePath : String := ""
  line : Int := 0
  fragmentIndex : Nat := 0
  range : Int × Int := (-1, -1)
  msgType : CompileMessageType := CompileMessageType.Error
  deriving DecidableEq, Repr

inductive CompileState where
  | Invalid
  | Valid
  deriving DecidableEq, Repr

/-- The record `GLCompileResult` (`CompileResult` plus the handle `Id`). `Id` has no
initialiser in the source; both functions that build a result assign it first. -/
structure GLCompileResult where
  fileSource : String := ""
  messages : List CompileMessage := []
  state : CompileState := CompileState.Invalid
  Id : Nat := 0
  deriving DecidableEq, Repr

/-! ## Machine integers -/

/-- Conversion of an integer value to `int32_t` (two's complement wrap). -/
def toInt32 (x : Int) : Int := (x + 2 ^ 31) % 2 ^ 32 - 2 ^ 31

/-- Conversion of an integer value to `uint32_t`. -/
def toUInt32 (x : Int) : Nat := (x % 2 ^ 32).toNat

def GL_FALSE : Int := 0

def GL_TRUE : Int := 1

/-! ## Standard library operations used by the parser -/

/-- Worker of `find_first_of`: scan the remaining characters, `i` is the position of the
first of them. -/
def find_first_of_from (c : Char) : List Char → Nat → Option Nat
  | [], _ => none
  | x :: xs, i => if x = c then some i else find_first_of_from c xs (i + 1)

/-- The call `std::string::find_first_of(char)`: the first position holding `c`, `none` for
`npos`. -/
def find_first_of (s : String) (c : Char) : Option Nat :=
  find_first_of_from c s.data 0

/-- Worker of `find`: scan the remaining characters for an occurrence of `pat`. -/
def find_from (pat : List Char) : List Char → Nat → Option Nat
  | [], i => if pat = [] then some i else none
  | x :: xs, i => if pat.isPrefixOf (x :: xs) then some i else find_from pat xs (i + 1)

/-- The call `std::string::find(pat, pos)`: the first position `>= pos` at which `pat`
occurs, `none` for `npos`. -/
def find (s pat : String) (pos : Nat) : Option Nat :=
  if s.data.length < pos then none else find_from pat.data (s.data.drop pos) pos

/-- The call `std::string::substr(pos, count)` with `pos` possibly `npos` (`none`): it throws
`std::out_of_range` (`none`) when `pos > size()`, which always holds for `npos`. -/
def substr (s : String) (pos : Option Nat) (count : Nat) : Option String :=
  match pos with
  | none => none
  | some p => if s.data.length < p then none else some ⟨(s.data.drop p).take count⟩

/-- The `size_t` difference `a - b` for `b` a position returned by `find` (at most `a`) or
`npos`; `a - npos` wraps to `a + 1`. -/
def sizeDiff (a : Nat) : Option Nat → Nat
  | some b => a - b
  | none => a + 1

/-- The predicate `isspace` of the C locale. -/
def isspace (c : Char) : Bool :=
  c == ' ' || c == '\t' || c == '\n' || c == '\x0b' || c == '\x0c' || c == '\r'

/-- Value of a run of decimal digits. -/
def digitsValue (ds : List Char) : Nat :=
  ds.foldl (fun acc d => 10 * acc + (d.toNat - 48)) 0

/-- The call `std::stoi(s)` (base 10): leading white space, an optional sign, then the longest
run of digits; what follows is ignored. `none` stands for the two exceptions it throws:
`std::invalid_argument` (no digit) and `std::out_of_range` (value outside `int`). -/
def stoi (s : String) : Option Int :=
  let body := s.data.dropWhile isspace
  let negative := body.head? == some '-'
  let unsigned := if body.head? == some '-' || body.head? == some '+' then body.tail else body
  let digits := unsigned.takeWhile Char.isDigit
  let value : Int := if negative then -(digitsValue digits : Int) else (digitsValue digits : Int)
  if digits = [] then none
  else if value < -2 ^ 31 ∨ 2 ^ 31 - 1 < value then none
  else some value

/-- Modelled from the spec: the helpers of `api/string_utils.h`, a header that is not among
the sources. The spec only says that diagnostics are "split on newlines" and matched
"case-insensitively", so the helpers are parameters of the embedding: every theorem holds for
whatever total functions they are. `string_trim` is the call with the default delimiters,
`string_trim_chars` the call with explicit ones. -/
structure StringUtils where
  string_split : String → String → List String
  string_trim : String → String
  string_trim_chars : String → String → String
  string_tolower : String → String

/-! ## `compile_parse_shader_errors` (lines 28-92) -/

/-- Lines 54-73: the conversions of the bracketed numbers. `Except.error` is a throwing
`std::stoi`, with the message as assigned so far. -/
def parse_numbers (U : StringUtils) (numVec : List String) (pMsg : CompileMessage) :
    Except CompileMessage CompileMessage :=
  match numVec with
  | [] => Except.ok pMsg
  | first :: more =>
    match stoi first with
    | none => Except.error pMsg
    | some n =>
      let pMsg := { pMsg with line := max 0 (toInt32 (n - 1)) }
      match more with
      | [] => Except.ok pMsg
      | second :: _ =>
        match U.string_split second "-" with
        | [] => Except.ok pMsg
        | colStart :: colMore =>
          match stoi colStart with
          | none => Except.error pMsg
          | some c =>
            let pMsg := { pMsg with range := (max 0 (toInt32 (c - 1)), pMsg.range.2) }
            match colMore with
            | colEnd :: _ =>
              match stoi colEnd with
              | none => Except.error pMsg
              | some e => Except.ok { pMsg with range := (pMsg.range.1, e) }
            | [] => Except.ok { pMsg with range := (pMsg.range.1, toInt32 (pMsg.range.1 + 1)) }

/-- Lines 42-82: the body of the `try` block for one diagnostic line. -/
def parse_try (U : StringUtils) (error : String) (pMsg : CompileMessage) :
    Except CompileMessage CompileMessage :=
  match find_first_of error '(' with
  | some bracketPos =>
    let lastBracket := find error ")" bracketPos
    if lastBracket = some 0 then Except.ok pMsg
    else
      match substr error (some 0) bracketPos with
      | none => Except.error pMsg
      | some pathPart =>
        let pMsg := { pMsg with filePath := U.string_trim pathPart }
        match substr error lastBracket (sizeDiff error.data.length lastBracket) with
        | none => Except.error pMsg
        | some tail =>
          let pMsg := { pMsg with text := U.string_trim_chars tail " \t():\r\n\x0c\x0b" }
          match substr error (some bracketPos) (sizeDiff (lastBracket.getD 0) (some bracketPos)) with
          | none => Except.error pMsg
          | some bracketed =>
            let numbers := U.string_trim_chars bracketed "( )"
            parse_numbers U (U.string_split numbers ",") pMsg
  | none =>
    Except.ok { pMsg with text := error, line := 0, range := (0, 0),
                          msgType := CompileMessageType.Error }

/-- Lines 36-90: the message pushed for one diagnostic line, `catch (...)` included. -/
def parse_message (U : StringUtils) (fileSource : String) (error : String) : CompileMessage :=
  let pMsg : CompileMessage := { filePath := fileSource, rawText := error }
  match parse_try U error pMsg with
  | Except.ok parsed => parsed
  | Except.error partly =>
    { partly with text := "Failed to parse compiler error:\n" ++ error, line := 0,
                  msgType := CompileMessageType.Error }

/-- The function `compile_parse_shader_errors`: the loop over the split lines, each turn
pushing one message onto `pResult->messages`. -/
def compile_parse_shader_errors (U : StringUtils) (pResult : GLCompileResult)
    (messages : String) : GLCompileResult :=
  (U.string_split messages "\n").foldl
    (fun result error =>
      { result with messages := result.messages ++ [parse_message U result.fileSource error] })
    pResult

/-! ## The line fix-up of `gl_compile_shader` (lines 165-170 and 183-199) -/

/-- The lambda of `std::count_if` on line 168 applied to a whole source: the number of
newline characters. -/
def newlineCount (source : String) : Nat :=
  source.data.countP (fun c => c == '\n')

/-- The vector `counts` built on lines 165-170. -/
def lineCounts (fragments : List ShaderFragment) : List Nat :=
  fragments.map (fun fragment => newlineCount fragment.source % 2 ^ 32)

/-- The inner loop of lines 188-198. `none`: the loop ran off the end of `counts` without
taking the branch; `some (line, fragment)`: the two values assigned before `break`. -/
def fixupLoop (line : Int) : List Nat → Nat → Nat → Option (Int × Nat)
  | [], _, _ => none
  | count :: rest, lastCount, fragment =>
    if line < toInt32 (((count + lastCount) % 2 ^ 32 : Nat) : Int) then
      some (toInt32 ((toUInt32 (line - (lastCount : Int)) : Nat) : Int), fragment)
    else
      fixupLoop line rest ((lastCount + count) % 2 ^ 32) ((fragment + 1) % 2 ^ 32)

/-- The body of the outer loop of lines 183-199 for one message. -/
def fixupMessage (fileSource : String) (counts : List Nat) (pMessage : CompileMessage) :
    CompileMessage :=
  let pMessage := { pMessage with filePath := fileSource }
  match fixupLoop pMessage.line counts 0 0 with
  | some (line, fragment) => { pMessage with line := line, fragmentIndex := fragment }
  | none => pMessage

/-! ## Backend and file system -/

/-- One call made to the OpenGL backend or to the file system. -/
inductive GLCall where
  | glCreateShader (type : ShaderType)
  | openFile (path : String)
  | glShaderSource (id : Nat) (source : String)
  | glCompileShader (id : Nat)
  | glGetShaderiv (id : Nat)
  | glGetShaderInfoLog (id : Nat)
  | glDeleteShader (id : Nat)
  | glCreateProgram
  | glAttachShader (program shader : Nat)
  | glLinkProgram (program : Nat)
  | glGetProgramiv (program : Nat)
  | glGetProgramInfoLog (program : Nat)
  | glDetachShader (program shader : Nat)
  | glDeleteProgram (program : Nat)
  | glGetError
  deriving DecidableEq, Repr

/-- What the environment answers during one `gl_compile_shader`: the id `glCreateShader`
returns, the text of the file at the package path when it opens, the `GL_COMPILE_STATUS`
written to `Result`, the `GL_INFO_LOG_LENGTH`, and the C string left in `errorMessage`. -/
structure CompileEnv where
  shaderId : Nat
  fileText : Option String
  Result : Int
  InfoLogLength : Int
  infoLog : String

/-- What the backend answers during one `gl_link_shaders`: the id `glCreateProgram` returns,
the `GL_LINK_STATUS`, the `GL_INFO_LOG_LENGTH`, and the C string left in
`ProgramErrorMessage`. -/
structure LinkEnv where
  ProgramID : Nat
  Result : Int
  InfoLogLength : Int
  infoLog : String

/-! ## `gl_compile_shader` (lines 93-215) -/

/-- The constructor `CompileMessage(type, path)`; `type` is not stored. -/
def CompileMessage.ofPath (_type : CompileMessageType) (path : String) : CompileMessage :=
  { filePath := path, text := "Unknown issue compiling: " ++ path }

/-- The constructor `CompileMessage(type, path, message)`; `type` is not stored. -/
def CompileMessage.ofPathMessage (_type : CompileMessageType) (path message : String) :
    CompileMessage :=
  { filePath := path, text := message }

/-- Lines 151-154: the concatenation of the fragment sources. -/
def concatFragments (fragments : List ShaderFragment) : String :=
  fragments.foldl (fun shader fragment => shader ++ fragment.source) ""

/-- Lines 177 and 257: whether the construction `std::vector<char>(InfoLogLength + 1)` throws.
The block is entered when `InfoLogLength > 0`; the sum is taken in `int` and converted to
`size_t`, so when it wraps to a negative `int` (at `INT_MAX`) the size asked for is beyond
`max_size()` and `std::length_error` is thrown. Running out of memory for a size that can be
represented is not modelled. -/
def logBufferThrows (InfoLogLength : Int) : Bool :=
  decide (0 < InfoLogLength) && decide (toInt32 (InfoLogLength + 1) < 0)

/-- Lines 157-207: from `glShaderSource` to the assignment of `state`. When the log buffer of
line 177 cannot be constructed the exception is caught on lines 209-213 and the result is
returned as it stands: no message, `state` Invalid and the handle of the shader object, which
is not deleted. -/
def compile_source (U : StringUtils) (env : CompileEnv) (shaderPackage : ShaderPackage)
    (spResult : GLCompileResult) (shader : String) (trace : List GLCall) :
    GLCompileResult × List GLCall :=
  let trace := trace ++ [GLCall.glShaderSource spResult.Id shader,
                         GLCall.glCompileShader spResult.Id]
  let counts := lineCounts shaderPackage.fragments
  let trace := trace ++ [GLCall.glGetShaderiv spResult.Id, GLCall.glGetShaderiv spResult.Id]
  if logBufferThrows env.InfoLogLength then (spResult, trace)
  else
    let parsed : GLCompileResult × List GLCall :=
      if 0 < env.InfoLogLength then
        let withMessages := compile_parse_shader_errors U spResult env.infoLog
        ({ withMessages with
            messages :=
              withMessages.messages.map (fixupMessage withMessages.fileSource counts) },
          trace ++ [GLCall.glGetShaderInfoLog spResult.Id])
      else (spResult, trace)
    let released : GLCompileResult × List GLCall :=
      if env.Result = GL_FALSE then
        ({ parsed.1 with Id := 0 }, parsed.2 ++ [GLCall.glDeleteShader parsed.1.Id])
      else parsed
    ({ released.1 with
        state := if env.Result = GL_TRUE then CompileState.Valid else CompileState.Invalid },
      released.2)

/-- Lines 132-155 followed by `compile_source`: the source text is the file at the package
path when there are no fragments, the concatenated fragments otherwise. -/
def compile_created (U : StringUtils) (env : CompileEnv) (type : ShaderType)
    (shaderPackage : ShaderPackage) (spResult : GLCompileResult) :
    GLCompileResult × List GLCall :=
  let spResult := { spResult with Id := env.shaderId }
  let trace := [GLCall.glCreateShader type]
  match shaderPackage.fragments with
  | [] =>
    match env.fileText with
    | some shader =>
      compile_source U env shaderPackage spResult shader
        (trace ++ [GLCall.openFile shaderPackage.path])
    | none =>
      ({ spResult with
          messages := spResult.messages ++
            [CompileMessage.ofPathMessage CompileMessageType.Error shaderPackage.path
              "Couldn't open file"] },
        trace ++ [GLCall.openFile shaderPackage.path])
  | _ :: _ =>
    compile_source U env shaderPackage spResult (concatFragments shaderPackage.fragments) trace

/-- The function `gl_compile_shader`: the result it returns and the calls it made. The one
exception that reaches the `catch` of lines 209-213 is that of the log buffer of line 177,
see `compile_source`; the parser catches its own. -/
def gl_compile_shader (U : StringUtils) (env : CompileEnv) (type : ShaderType)
    (shaderPackage : ShaderPackage) : GLCompileResult × List GLCall :=
  let spResult : GLCompileResult := { fileSource := shaderPackage.path, Id := 0 }
  match type with
  | ShaderType.Vertex => compile_created U env ShaderType.Vertex shaderPackage spResult
  | ShaderType.Geometry => compile_created U env ShaderType.Geometry shaderPackage spResult
  | ShaderType.Pixel => compile_created U env ShaderType.Pixel shaderPackage spResult
  | ShaderType.Unknown =>
    ({ spResult with
        messages := spResult.messages ++
          [CompileMessage.ofPath CompileMessageType.Error
            "Shader type could not be determined.  Missing #shadertype tag?"] }, [])
  | ShaderType.Compute =>
    ({ spResult with
        messages := spResult.messages ++
          [CompileMessage.ofPath CompileMessageType.Error "Shader type not supported yet"] }, [])

/-! ## `gl_link_shaders` (lines 217-294) -/

/-- The objects the `std::shared_ptr<GLCompileResult>` values point to; a pointer is the
position of its object, the null pointer of the optional geometry stage is `none`. -/
abbrev Heap := List GLCompileResult

/-- Lines 260-273: the stage a link message is attributed to. -/
def attributeMessage (U : StringUtils) (vertexSource pixelSource : String)
    (msg : CompileMessage) : CompileMessage :=
  let err := U.string_tolower msg.rawText
  if (find err "vertex" 0).isSome then { msg with filePath := vertexSource }
  else { msg with filePath := pixelSource }

/-- Lines 240-254: the calls from `glCreateProgram` to the two status queries; `geometryId`
is the handle of the geometry stage when one was passed. -/
def link_calls (env : LinkEnv) (vertex pixel : GLCompileResult) (geometryId : Option Nat) :
    List GLCall :=
  let attachGeometry : List GLCall :=
    match geometryId with
    | some id => [GLCall.glAttachShader env.ProgramID id]
    | none => []
  [GLCall.glCreateProgram, GLCall.glAttachShader env.ProgramID vertex.Id,
   GLCall.glAttachShader env.ProgramID pixel.Id] ++ attachGeometry ++
  [GLCall.glLinkProgram env.ProgramID, GLCall.glGetProgramiv env.ProgramID,
   GLCall.glGetProgramiv env.ProgramID]

/-- Lines 235-293 when the log buffer of line 257 can be constructed or is not asked for: the
program is created, linked and checked. Returns the new result and the calls made. -/
def link_result (U : StringUtils) (env : LinkEnv) (vertex pixel : GLCompileResult)
    (geometryId : Option Nat) : GLCompileResult × List GLCall :=
  let spResult : GLCompileResult := { fileSource := vertex.fileSource, Id := 0 }
  let trace := link_calls env vertex pixel geometryId
  let parsed : GLCompileResult × List GLCall :=
    if 0 < env.InfoLogLength then
      let withMessages := compile_parse_shader_errors U spResult env.infoLog
      ({ withMessages with
          messages := withMessages.messages.map
            (attributeMessage U vertex.fileSource pixel.fileSource) },
        trace ++ [GLCall.glGetProgramInfoLog env.ProgramID])
    else (spResult, trace)
  let detachGeometry : List GLCall :=
    match geometryId with
    | some id => [GLCall.glDetachShader env.ProgramID id]
    | none => []
  let finished : GLCompileResult × List GLCall :=
    if env.Result = GL_TRUE then ({ parsed.1 with Id := env.ProgramID }, parsed.2)
    else
      (parsed.1, parsed.2 ++ [GLCall.glDetachShader env.ProgramID vertex.Id,
                              GLCall.glDetachShader env.ProgramID pixel.Id] ++ detachGeometry ++
                             [GLCall.glDeleteProgram env.ProgramID, GLCall.glGetError])
  ({ finished.1 with
      state := if env.Result = GL_TRUE then CompileState.Valid else CompileState.Invalid },
    finished.2)

/-- Lines 235-293. `Except.ok` is the new result with the calls made. `Except.error` is the
exception of line 257 leaving the function, which has no `try` block, with the calls made
until then: the program was created and is neither detached from nor deleted. -/
def link_program (U : StringUtils) (env : LinkEnv) (vertex pixel : GLCompileResult)
    (geometryId : Option Nat) : Except (List GLCall) (GLCompileResult × List GLCall) :=
  if logBufferThrows env.InfoLogLength then
    Except.error (link_calls env vertex pixel geometryId)
  else Except.ok (link_result U env vertex pixel geometryId)

/-- The function `gl_link_shaders`. The arguments are pointers into `heap`; the value is the
returned pointer, the heap after the call and the calls made. It is `none` when no result is
returned: a pointer that the code dereferences points to no object, or the exception of
line 257 leaves the function. A new result is allocated at the end of the heap. -/
def gl_link_shaders (U : StringUtils) (env : LinkEnv) (heap : Heap) (spVertex : Nat)
    (spGeometry : Option Nat) (spPixel : Nat) : Option (Nat × Heap × List GLCall) :=
  match heap[spVertex]? with
  | none => none
  | some vertex =>
    if vertex.state = CompileState.Invalid then some (spVertex, heap, [])
    else
      match heap[spPixel]? with
      | none => none
      | some pixel =>
        if pixel.state = CompileState.Invalid then some (spPixel, heap, [])
        else
          match spGeometry with
          | none =>
            match link_program U env vertex pixel none with
            | Except.ok linked => some (heap.length, heap ++ [linked.1], linked.2)
            | Except.error _ => none
          | some pGeometry =>
            match heap[pGeometry]? with
            | none => none
            | some geometry =>
              if geometry.state = CompileState.Invalid then some (pGeometry, heap, [])
              else
                match link_program U env vertex pixel (some geometry.Id) with
                | Except.ok linked => some (heap.length, heap ++ [linked.1], linked.2)
                | Except.error _ => none

/-! ## A concrete set of string helpers, used to evaluate the embedding -/

/-- Worker of `refSplit`: `current` holds the characters of the token being read. -/
def refTokens (delims : List Char) : List Char → List Char → List String
  | [], current => if current = [] then [] else [String.mk current]
  | c :: rest, current =>
    if delims.contains c then
      if current = [] then refTokens delims rest []
      else String.mk current :: refTokens delims rest []
    else refTokens delims rest (current ++ [c])

/-- Modelled from the spec: `string_split` of the missing `api/string_utils.h`, after "split
on newlines; for each non-empty line": the non-empty runs between delimiter characters. -/
def refSplit (text delims : String) : List String :=
  refTokens delims.data text.data []

/-- Modelled from the spec: `string_trim` of the missing `api/string_utils.h`: the given
characters are removed from both ends. -/
def refTrim (s chars : String) : String :=
  String.mk ((s.data.dropWhile chars.data.contains).reverse.dropWhile chars.data.contains).reverse

/-- Modelled from the spec: `string_tolower` of the missing `api/string_utils.h`, after
"case-insensitive substring match": ASCII capitals are replaced by small letters. -/
def refToLower (s : String) : String :=
  String.mk (s.data.map Char.toLower)

/-- Modelled from the spec: one choice of the helpers of the missing `api/string_utils.h`,
built from `refSplit`, `refTrim` and `refToLower`; it only serves to run the embedding on
concrete diagnostics. -/
def refUtils : StringUtils where
  string_split := refSplit
  string_trim := fun s => refTrim s " \t\n\r\x0c\x0b"
  string_trim_chars := refTrim
  string_tolower := refToLower

/-! ## Framebuffers (`gl_fbo.h`, `gl_fbo.cpp`) -/

structure Vec2i where
  x : Int
  y : Int
  deriving DecidableEq, Repr

/-- The record `Fbo`. `size` and `displaySize` have no initialiser in the source; the zero
defaults are those of the zero-initialised static array `fbo[2]`. -/
structure Fbo where
  fbo : Nat := 0
  texture : Nat := 0
  depth : Nat := 0
  size : Vec2i := ⟨0, 0⟩
  displaySize : Vec2i := ⟨0, 0⟩
  deriving DecidableEq, Repr

/-- One call made by the render loop; a framebuffer argument is written as its position in
the array `fbo[2]`. -/
inductive RenderCall where
  | fbo_create (position : Nat)
  | compile (type : ShaderType)
  | link
  | setupProgram (program : Nat)
  | setupVertexArray
  | fbo_resize (position : Nat) (newFboSize : Vec2i)
  | fbo_bind (position : Nat)
  | fbo_bind_texture (position : Nat) (channel : Int)
  | fbo_clear
  | glBindVertexArray (array : Nat)
  | glUseProgram (program : Nat)
  | setUniforms (size : Vec2i)
  | glDrawArrays
  | fbo_unbind (position : Nat) (displaySize : Vec2i)
  | fbo_unbind_texture (position : Nat) (channel : Int)
  | AddImage (position : Nat)
  | fbo_destroy (position : Nat)
  deriving DecidableEq, Repr

/-- The function `fbo_create`: the three generated names are the backend's answers, and so
are the values of the two members the function leaves uninitialised. -/
def fbo_create (answer : Fbo) : Fbo :=
  { fbo := answer.fbo, texture := answer.texture, depth := answer.depth,
    size := answer.size, displaySize := answer.displaySize }

/-- The function `fbo_resize`, as far as the record goes: nothing happens when the size is the
one stored, otherwise the new size is stored (and the storage is allocated anew). -/
def fbo_resize (fbo : Fbo) (newFboSize : Vec2i) : Fbo :=
  if fbo.size.x = newFboSize.x ∧ fbo.size.y = newFboSize.y then fbo
  else { fbo with size := newFboSize }

/-! ## The render loop (`shader_window.cpp`) -/

/-- The vertex shader text `strVShader` (lines 30-41). -/
def strVShader : String :=
  "\n" ++
  "#version 330\n" ++
  "\n" ++
  "in vec3 positionsIn;\n" ++
  "in vec2 texCoordsIn;\n" ++
  "\n" ++
  "out vec2 texCoord;\n" ++
  "\n" ++
  "void main() \x7b\n" ++
  "    gl_Position = vec4(positionsIn, 1.0);\n" ++
  "\x7d\n"

/-- The pixel shader text `strShader` (lines 43-91). -/
def strShader : String :=
  "\n" ++
  "#version 330\n" ++
  "\n" ++
  "out vec4 fragColor;\n" ++
  "\n" ++
  "uniform vec2 iResolution;\n" ++
  "uniform sampler2D iChannel0;\n" ++
  "uniform float iTime;\n" ++
  "uniform vec4 iSpectrum;\n" ++
  "\n" ++
  "mat2 rot(float a)\n" ++
  "\x7b\n" ++
  "\tfloat c = cos(a); float s = sin(a) + .2f;\n" ++
  "    return mat2(c, s, -s, c);\n" ++
  "\x7d\n" ++
  "\n" ++
  "\n" ++
  "void mainImage(in vec2 fragCoord)\n" ++
  "\x7b\n" ++
  "\tvec2 uv = fragCoord.xy - 0.5*iResolution.xy;\n" ++
  "    uv *= 2.0/iResolution.y;\n" ++
  "\n" ++
  "    float aud = (iSpectrum.y -.5f) * 1.5f;\n" ++
  "    uv *= 2.0*rot(iTime + aud); \n" ++
  "    \n" ++
  "    vec2 UV = fragCoord.xy - 0.5*iResolution.xy;\n" ++
  "    UV *= rot(0.1 *sin(iTime + aud))*(1.0 + 0.05 *sin(0.5*iTime + aud));\n" ++
  "    UV += 0.5*iResolution.xy;\n" ++
  "    UV /= iResolution.xy;\n" ++
  "   \n" ++
  "    float offset = 0.0005f; \n" ++
  "    float s = abs(uv.x) + abs(uv.y); // \"Square\"\n" ++
  "    float s1 = abs(uv.x + offset) + abs(uv.y + offset); // \"Square\"\n" ++
  "    float s2 = abs(uv.x - offset) + abs(uv.y - offset); // \"Square\"\n" ++
  "    float s3 = abs(uv.x - offset) + abs(uv.y + offset); // \"Square\"\n" ++
  "    \n" ++
  "    fragColor = 0.95*texture(iChannel0, UV);\n" ++
  "    fragColor += vec4(iSpectrum.x) * ( step(1.0, s) - step(1.025, s)) * vec4(1.0f, 0.0f, 0.0f, 0.0f);\n" ++
  "    fragColor += vec4(iSpectrum.y) * ( step(1.0, s1) - step(1.025, s1)) * vec4(0.5f, 1.0f, 0.0f, 0.0f);\n" ++
  "    fragColor += vec4(iSpectrum.z) * ( step(1.0, s2) - step(1.025, s2)) * vec4(0.2f, .5f, 0.0f, 0.0f);\n" ++
  "    fragColor += vec4(iSpectrum.w) * ( step(1.0, s3) - step(1.025, s3)) * vec4(0.0f, 0.5f, 0.2f, 0.0f);\n" ++
  "\x7d\n" ++
  "\n" ++
  "void main()\n" ++
  "\x7b\n" ++
  "    mainImage(gl_FragCoord.xy);\n" ++
  "\x7d\n" ++
  "\n"

/-- The file-scope variables of `shader_window.cpp` (lines 15-25), `timeStart` left out. -/
structure RenderState where
  fbo0 : Fbo := {}
  fbo1 : Fbo := {}
  currentFBO : Nat := 0
  vao : Nat := 0
  vbo : Nat := 0
  iTimeParam : Nat := 0
  iChannel0 : Nat := 0
  iResolutionParam : Nat := 0
  iSpectrum : Nat := 0
  spProgram : Option GLCompileResult := none
  renderCount : Nat := 0
  deriving DecidableEq, Repr

/-- The state at program start: the initialisers of lines 15-25. -/
def initialState : RenderState := {}

/-- The array access `fbo[i]`; positions other than 0 and 1 are outside the array. -/
def RenderState.fboAt (s : RenderState) (i : Nat) : Fbo :=
  if i = 0 then s.fbo0 else if i = 1 then s.fbo1 else {}

/-- The assignment to `fbo[i]`. -/
def RenderState.setFbo (s : RenderState) (i : Nat) (value : Fbo) : RenderState :=
  if i = 0 then { s with fbo0 := value } else if i = 1 then { s with fbo1 := value } else s

/-- What the backend answers while `shader_window_init` sets everything up. -/
structure InitEnv where
  create0 : Fbo
  create1 : Fbo
  pixelEnv : CompileEnv
  vertexEnv : CompileEnv
  linkEnv : LinkEnv
  iChannel0 : Nat
  iTimeParam : Nat
  iResolutionParam : Nat
  iSpectrum : Nat
  vao : Nat
  vbo : Nat

/-- What one call of `shader_window_show` reads from outside: the answers for the set-up,
the size `Vec2i{int(max.x - min.x), int(max.y - min.y)}` of the clip rectangle and the
display size, both already converted to integers. -/
structure FrameEnv where
  init : InitEnv
  size : Vec2i
  displaySize : Vec2i

/-- The function `shader_window_init` (lines 116-165); the time stamp and the logging of
`dump_shader_errors` are left out. -/
def shader_window_init (U : StringUtils) (env : InitEnv) (s : RenderState) :
    RenderState × List RenderCall :=
  if s.fbo0.fbo = 0 then
    let pixelShader := (gl_compile_shader U env.pixelEnv ShaderType.Pixel
      { fragments := [⟨"mainPS", strShader⟩], path := "" }).1
    let vertexShader := (gl_compile_shader U env.vertexEnv ShaderType.Vertex
      { fragments := [⟨"mainVS", strVShader⟩], path := "" }).1
    let spProgram : Option GLCompileResult :=
      match gl_link_shaders U env.linkEnv [vertexShader, pixelShader] 0 none 1 with
      | some (pointer, heap, _) => heap[pointer]?
      | none => none
    ({ s with
        fbo0 := fbo_create env.create0, fbo1 := fbo_create env.create1,
        spProgram := spProgram,
        iChannel0 := env.iChannel0, iTimeParam := env.iTimeParam,
        iResolutionParam := env.iResolutionParam, iSpectrum := env.iSpectrum,
        vao := env.vao, vbo := env.vbo },
      [RenderCall.fbo_create 0, RenderCall.fbo_create 1, RenderCall.compile ShaderType.Pixel,
       RenderCall.compile ShaderType.Vertex, RenderCall.link,
       RenderCall.setupProgram ((spProgram.map (fun program => program.Id)).getD 0),
       RenderCall.setupVertexArray])
  else (s, [])

/-- What one call of `shader_window_show` leaves: the state, whether the frame was completed
(`false` for the early return of line 186) and the calls made. -/
structure FrameResult where
  state : RenderState
  completed : Bool
  calls : List RenderCall

/-- Lines 184-241 of `shader_window_show`: what follows the set-up, `calls` being the calls
made so far. -/
def render_frame (env : FrameEnv) (s : RenderState) (calls : List RenderCall) : FrameResult :=
  if (s.fboAt s.currentFBO).fbo = 0 then
    { state := s, completed := false, calls := calls }
  else
    let write := s.currentFBO
    let read := toUInt32 (1 - (s.currentFBO : Int))
    let s := s.setFbo write (fbo_resize (s.fboAt write) env.size)
    let bound := [RenderCall.fbo_resize write env.size, RenderCall.fbo_bind write,
                  RenderCall.fbo_bind_texture read 0]
    let cleared : RenderState × List RenderCall :=
      if s.renderCount < 2 then
        ({ s with renderCount := (s.renderCount + 1) % 2 ^ 32 }, [RenderCall.fbo_clear])
      else (s, [])
    let s := cleared.1
    let program := (s.spProgram.map (fun program => program.Id)).getD 0
    let drawn := [RenderCall.glBindVertexArray s.vao, RenderCall.glUseProgram program,
                  RenderCall.setUniforms env.size, RenderCall.glDrawArrays,
                  RenderCall.glBindVertexArray 0, RenderCall.glUseProgram 0,
                  RenderCall.fbo_unbind write env.displaySize,
                  RenderCall.fbo_unbind_texture read 0, RenderCall.AddImage write]
    { state := { s with currentFBO := toUInt32 (1 - (s.currentFBO : Int)) },
      completed := true,
      calls := calls ++ bound ++ cleared.2 ++ drawn }

/-- The function `shader_window_show` (lines 180-242). -/
def shader_window_show (U : StringUtils) (env : FrameEnv) (s : RenderState) : FrameResult :=
  render_frame env (shader_window_init U env.init s).1 (shader_window_init U env.init s).2

/-- The function `shader_window_close` (lines 167-177): the records are left as they are. -/
def shader_window_close (s : RenderState) : RenderState × List RenderCall :=
  (s, (if s.fbo0.fbo ≠ 0 then [RenderCall.fbo_destroy 0] else []) ++
      (if s.fbo1.fbo ≠ 0 then [RenderCall.fbo_destroy 1] else []))

/-- The frames of successive calls of `shader_window_show`, one per entry of `envs`. -/
def frames (U : StringUtils) : RenderState → List FrameEnv → List FrameResult
  | _, [] => []
  | s, env :: rest =>
    (shader_window_show U env s) :: frames U (shader_window_show U env s).state rest

/-- Whether the frame issued the clear of line 212. -/
def FrameResult.clears (frame : FrameResult) : Bool :=
  frame.calls.contains RenderCall.fbo_clear

/-- The framebuffer the frame bound for writing (line 207), as a position in `fbo[2]`. -/
def FrameResult.writeTarget (frame : FrameResult) : Option Nat :=
  frame.calls.findSome? (fun call =>
    match call with
    | RenderCall.fbo_bind position => some position
    | _ => none)

/-- The framebuffer whose texture the frame bound as sampler input (line 208). -/
def FrameResult.readSource (frame : FrameResult) : Option Nat :=
  frame.calls.findSome? (fun call =>
    match call with
    | RenderCall.fbo_bind_texture position _ => some position
    | _ => none)

/-- The state after successive calls of `shader_window_show`. -/
def stateAfter (U : StringUtils) (s : RenderState) (envs : List FrameEnv) : RenderState :=
  envs.foldl (fun state env => (shader_window_show U env state).state) s

/-- The completed frames of a run, in order. -/
def completedFrames (run : List FrameResult) : List FrameResult :=
  run.filter (fun frame => frame.completed)

/-! ## Quantities the specification speaks about -/

/-- The `count(j)` of the specification: newlines in fragment `j` (0 past the end). -/
def fragCount (pkg : ShaderPackage) (j : Nat) : Nat :=
  match pkg.fragments[j]? with
  | some fragment => newlineCount fragment.source
  | none => 0

/-- The `offset(i)` of the specification: the sum of `count(j)` over `j < i`. -/
def fragOffset (pkg : ShaderPackage) (i : Nat) : Nat :=
  ((pkg.fragments.take i).map (fun fragment => newlineCount fragment.source)).sum

/-- Every number the parser reads from the bracket converts: the first entry of `numVec`,
and of the second entry the part before and the part after the `-`. -/
def numbersConvert (U : StringUtils) : List String → Bool
  | [] => true
  | first :: more =>
    (stoi first).isSome &&
      match more with
      | [] => true
      | second :: _ =>
        match U.string_split second "-" with
        | [] => true
        | colStart :: colMore =>
          (stoi colStart).isSome &&
            match colMore with
            | [] => true
            | colEnd :: _ => (stoi colEnd).isSome

/-- The vector `numVec` of lines 51-52 when the opening bracket is at `b` and the closing
one at `lb`. -/
def numVecOf (U : StringUtils) (error : String) (b lb : Nat) : List String :=
  U.string_split
    (U.string_trim_chars (String.mk ((error.data.drop b).take (lb - b))) "( )") ","

/-! ## Concrete inputs -/

/-- A package of three fragments; the concatenated text is `a⏎b⏎c`, lines 0, 1 and 2. -/
def samplePackage : ShaderPackage :=
  { fragments := [⟨"head", "a\n"⟩, ⟨"body", "b\n"⟩, ⟨"tail", "c"⟩], path := "shader.glsl" }

/-- A text of `2^31` newline characters (2 GiB). -/
def hugeSource : String :=
  String.mk (List.replicate (2 ^ 31) '\n')

/-- A package whose second fragment is `hugeSource`, so that the end of its line range is
not an `int32_t`. -/
def hugePackage : ShaderPackage :=
  { fragments := [⟨"head", "\n"⟩, ⟨"body", hugeSource⟩], path := "shader.glsl" }

/-- A failed compile that reports one diagnostic at the backend line `line`. -/
def sampleCompileEnv (line : String) : CompileEnv :=
  { shaderId := 7, fileText := none, Result := GL_FALSE, InfoLogLength := 24,
    infoLog := "shader.glsl(" ++ line ++ "): error" }

/-- A heap with a valid vertex stage at 0, a valid pixel stage at 1 and an invalid stage
at 2. -/
def sampleHeap : Heap :=
  [{ fileSource := "quad.vert", state := CompileState.Valid, Id := 3 },
   { fileSource := "quad.frag", state := CompileState.Valid, Id := 4 },
   { fileSource := "broken.glsl",
     messages := [{ rawText := "broken.glsl(1): error", text := "error" }],
     state := CompileState.Invalid, Id := 0 }]

/-- A link for which the backend reports an info log of `INT_MAX` characters. -/
def overflowLinkEnv : LinkEnv :=
  { ProgramID := 9, Result := GL_FALSE, InfoLogLength := 2147483647,
    infoLog := "Vertex info (2)" }

/-- A failed link with two lines of diagnostics. -/
def sampleLinkEnv : LinkEnv :=
  { ProgramID := 9, Result := GL_FALSE, InfoLogLength := 40,
    infoLog := "Vertex info (2)\nfragment info (3)" }

/-- Answers of a backend that creates the two framebuffers and compiles and links the two
shaders without diagnostics. -/
def sampleInitEnv : InitEnv :=
  { create0 := { fbo := 1, texture := 1, depth := 1 },
    create1 := { fbo := 2, texture := 2, depth := 2 },
    pixelEnv := { shaderId := 1, fileText := none, Result := GL_TRUE, InfoLogLength := 0,
                  infoLog := "" },
    vertexEnv := { shaderId := 2, fileText := none, Result := GL_TRUE, InfoLogLength := 0,
                   infoLog := "" },
    linkEnv := { ProgramID := 3, Result := GL_TRUE, InfoLogLength := 0, infoLog := "" },
    iChannel0 := 0, iTimeParam := 1, iResolutionParam := 2, iSpectrum := 3, vao := 1, vbo := 1 }

/-- A frame on a 640 x 480 clip rectangle. -/
def sampleFrameEnv : FrameEnv :=
  { init := sampleInitEnv, size := ⟨640, 480⟩, displaySize := ⟨640, 480⟩ }

/-- The environment `env` with a backend that hands out the non-zero name `name + 1` for the
framebuffer of `fbo[0]`. -/
def withFramebuffer (env : FrameEnv) (name : Nat) : FrameEnv :=
  { env with init := { env.init with create0 := { env.init.create0 with fbo := name + 1 } } }

/-- A frame during which the backend fails to create the framebuffers (the names stay 0). -/
def failingFrameEnv : FrameEnv :=
  { init := { sampleInitEnv with create0 := {}, create1 := {} },
    size := ⟨640, 480⟩, displaySize := ⟨640, 480⟩ }

/-! ## Machine integers: values in range are kept -/

theorem toInt32_of_range (x : Int) (h1 : -2 ^ 31 ≤ x) (h2 : x < 2 ^ 31) : toInt32 x = x := by
  unfold toInt32
  omega

theorem toUInt32_of_range (x : Int) (h1 : 0 ≤ x) (h2 : x < 2 ^ 32) :
    ((toUInt32 x : Nat) : Int) = x := by
  unfold toUInt32
  omega

/-- The log buffer of lines 177 and 257 can be constructed whenever the length reported by
the backend is below `INT_MAX`. -/
theorem logBufferThrows_of_lt (InfoLogLength : Int) (h : InfoLogLength < 2 ^ 31 - 1) :
    logBufferThrows InfoLogLength = false := by
  unfold logBufferThrows toInt32
  by_cases hpos : 0 < InfoLogLength
  · have hsize : ¬ (InfoLogLength + 1 + 2 ^ 31) % 2 ^ 32 - 2 ^ 31 < 0 := by omega
    rw [decide_eq_false hsize, Bool.and_false]
  · rw [decide_eq_false hpos, Bool.false_and]

/-! ## The fix-up loop -/

/-- One turn of the loop of lines 188-198 that does not take the branch. -/
theorem fixupLoop_step_false (line : Int) (n : Nat) (rest : List Nat) (off k : Nat)
    (hn : off + n < 2 ^ 31) (hk : k + 1 < 2 ^ 32) (hnot : ¬ line < ((off + n : Nat) : Int)) :
    fixupLoop line (n % 2 ^ 32 :: rest) off k = fixupLoop line rest (off + n) (k + 1) := by
  have h1 : (n % 2 ^ 32 + off) % 2 ^ 32 = off + n := by omega
  have h2 : toInt32 ((off + n : Nat) : Int) = ((off + n : Nat) : Int) :=
    toInt32_of_range _ (by omega) (by omega)
  have h5 : (off + n % 2 ^ 32) % 2 ^ 32 = off + n := by omega
  have h6 : (k + 1) % 2 ^ 32 = k + 1 := by omega
  rw [fixupLoop, h1, h2, if_neg hnot, h5, h6]

/-- The turn of the loop of lines 188-198 that takes the branch and breaks. -/
theorem fixupLoop_step_true (line : Int) (n : Nat) (rest : List Nat) (off k : Nat)
    (hn : off + n < 2 ^ 31) (hlo : (off : Int) ≤ line) (hhi : line < ((off + n : Nat) : Int)) :
    fixupLoop line (n % 2 ^ 32 :: rest) off k = some (line - (off : Int), k) := by
  have h1 : (n % 2 ^ 32 + off) % 2 ^ 32 = off + n := by omega
  have h2 : toInt32 ((off + n : Nat) : Int) = ((off + n : Nat) : Int) :=
    toInt32_of_range _ (by omega) (by omega)
  have h3 : ((toUInt32 (line - (off : Int)) : Nat) : Int) = line - (off : Int) :=
    toUInt32_of_range _ (by omega) (by omega)
  have h4 : toInt32 (line - (off : Int)) = line - (off : Int) :=
    toInt32_of_range _ (by omega) (by omega)
  rw [fixupLoop, h1, h2, if_pos hhi, h3, h4]

/-- Loop invariant of lines 188-198: entered with `lastCount = off` and `fragment = k`, the
loop over the counts `ns` stops at position `d` when the line lies in the `d`-th range. -/
theorem fixupLoop_spec (line : Int) :
    ∀ (ns : List Nat) (d off k : Nat),
      d < ns.length →
      ((off + (ns.take d).sum : Nat) : Int) ≤ line →
      line < ((off + (ns.take d).sum + ns.getD d 0 : Nat) : Int) →
      off + (ns.take d).sum + ns.getD d 0 < 2 ^ 31 →
      k + d < 2 ^ 32 →
      fixupLoop line (ns.map (fun n => n % 2 ^ 32)) off k
        = some (line - ((off + (ns.take d).sum : Nat) : Int), k + d) := by
  intro ns
  induction ns with
  | nil => intro d off k hd; simp at hd
  | cons n rest ih =>
    intro d off k hd hlo hhi hfit hk
    cases d with
    | zero =>
      rw [List.take_zero, List.sum_nil, Nat.add_zero, List.getD_cons_zero] at hhi hfit
      rw [List.take_zero, List.sum_nil, Nat.add_zero] at hlo
      rw [List.map_cons, fixupLoop_step_true line n _ off k hfit hlo hhi, List.take_zero,
        List.sum_nil, Nat.add_zero, Nat.add_zero]
    | succ d =>
      rw [List.take_succ_cons, List.sum_cons, List.getD_cons_succ] at hhi hfit
      rw [List.take_succ_cons, List.sum_cons] at hlo
      rw [List.length_cons] at hd
      have hd2 : d < rest.length := Nat.lt_of_succ_lt_succ hd
      have e1 : off + (n + (rest.take d).sum) = off + n + (rest.take d).sum :=
        (Nat.add_assoc _ _ _).symm
      have e2 : k + (d + 1) = k + 1 + d := by omega
      rw [e1] at hlo hhi hfit
      rw [e2] at hk
      have hn : off + n < 2 ^ 31 := by omega
      have hnot : ¬ line < ((off + n : Nat) : Int) := by
        have : ((off + n : Nat) : Int) ≤ ((off + n + (rest.take d).sum : Nat) : Int) := by
          exact Int.ofNat_le.mpr (Nat.le_add_right _ _)
        omega
      rw [List.map_cons, fixupLoop_step_false line n _ off k hn (by omega) hnot,
        ih d (off + n) (k + 1) hd2 hlo hhi hfit hk, List.take_succ_cons, List.sum_cons, e1, e2]

/-! ## Shape of the results -/

/-- The loop of `compile_parse_shader_errors` as a fold: the record fields other than
`messages` are untouched and one message is appended per line. -/
theorem parse_fold (U : StringUtils) (lines : List String) :
    ∀ pResult : GLCompileResult,
      lines.foldl
        (fun result error =>
          { result with
              messages := result.messages ++ [parse_message U result.fileSource error] })
        pResult
      = { pResult with
            messages := pResult.messages ++ lines.map (parse_message U pResult.fileSource) } := by
  induction lines with
  | nil => intro pResult; simp
  | cons error rest ih => intro pResult; simp [List.foldl_cons, ih]

theorem compile_parse_shader_errors_eq (U : StringUtils) (pResult : GLCompileResult)
    (messages : String) :
    compile_parse_shader_errors U pResult messages
      = { pResult with
            messages := pResult.messages ++
              (U.string_split messages "\n").map (parse_message U pResult.fileSource) } :=
  parse_fold U _ pResult

/-- The messages of a compile that reaches line 157 with a non-empty info log whose buffer
can be constructed: the parsed lines, each passed through the fix-up. -/
theorem compile_source_messages (U : StringUtils) (env : CompileEnv)
    (shaderPackage : ShaderPackage) (spResult : GLCompileResult) (shader : String)
    (trace : List GLCall) (hlog : 0 < env.InfoLogLength)
    (hbuf : env.InfoLogLength < 2 ^ 31 - 1) :
    (compile_source U env shaderPackage spResult shader trace).1.messages
      = (compile_parse_shader_errors U spResult env.infoLog).messages.map
          (fixupMessage spResult.fileSource (lineCounts shaderPackage.fragments)) := by
  unfold compile_source
  simp only [logBufferThrows_of_lt env.InfoLogLength hbuf, Bool.false_eq_true, if_false,
    if_pos hlog]
  rw [compile_parse_shader_errors_eq]
  by_cases hres : env.Result = GL_FALSE <;> simp [hres]

/-- A compile whose log buffer cannot be constructed (line 177 throws, lines 209-213 catch):
the result comes back as it was after `glCreateShader`, without `glGetShaderInfoLog` and
without `glDeleteShader`. -/
theorem compile_source_caught (U : StringUtils) (env : CompileEnv)
    (shaderPackage : ShaderPackage) (spResult : GLCompileResult) (shader : String)
    (trace : List GLCall) (hthrow : logBufferThrows env.InfoLogLength = true) :
    compile_source U env shaderPackage spResult shader trace
      = (spResult, trace ++
          [GLCall.glShaderSource spResult.Id shader, GLCall.glCompileShader spResult.Id] ++
          [GLCall.glGetShaderiv spResult.Id, GLCall.glGetShaderiv spResult.Id]) := by
  unfold compile_source
  simp only [hthrow, if_true]

/-- The messages of `gl_compile_shader` for a creatable stage kind, a package with fragments
and a non-empty info log whose buffer can be constructed. -/
theorem gl_compile_shader_messages (U : StringUtils) (env : CompileEnv) (type : ShaderType)
    (pkg : ShaderPackage)
    (htype : type = ShaderType.Vertex ∨ type = ShaderType.Geometry ∨ type = ShaderType.Pixel)
    (hfrag : pkg.fragments ≠ []) (hlog : 0 < env.InfoLogLength)
    (hbuf : env.InfoLogLength < 2 ^ 31 - 1) :
    (gl_compile_shader U env type pkg).1.messages
      = ((U.string_split env.infoLog "\n").map (parse_message U pkg.path)).map
          (fixupMessage pkg.path (lineCounts pkg.fragments)) := by
  have hcreated : ∀ t, (compile_created U env t pkg
        { fileSource := pkg.path, Id := 0 }).1.messages
      = ((U.string_split env.infoLog "\n").map (parse_message U pkg.path)).map
          (fixupMessage pkg.path (lineCounts pkg.fragments)) := by
    intro t
    unfold compile_created
    cases hf : pkg.fragments with
    | nil => exact absurd hf hfrag
    | cons f fs =>
      simp only []
      rw [compile_source_messages U env pkg _ _ _ hlog hbuf, compile_parse_shader_errors_eq,
        hf]
      simp
  rcases htype with h | h | h <;> subst h <;> exact hcreated _

/-- The fix-up of one message whose line lies in the range of fragment `i`. -/
theorem fixupMessage_in_range (fileSource : String) (pkg : ShaderPackage)
    (pMessage : CompileMessage) (i : Nat)
    (hlo : ((fragOffset pkg i : Nat) : Int) ≤ pMessage.line)
    (hhi : pMessage.line < ((fragOffset pkg i + fragCount pkg i : Nat) : Int))
    (hfit : fragOffset pkg i + fragCount pkg i < 2 ^ 31) (hidx : i < 2 ^ 32) :
    fixupMessage fileSource (lineCounts pkg.fragments) pMessage
      = { pMessage with filePath := fileSource, line := pMessage.line - fragOffset pkg i,
                        fragmentIndex := i } := by
  have hpos : 0 < fragCount pkg i := by omega
  have hlen : i < pkg.fragments.length := by
    by_contra hge
    have hnone : pkg.fragments[i]? = none := List.getElem?_eq_none (by omega)
    simp [fragCount, hnone] at hpos
  have hoff : fragOffset pkg i
      = ((pkg.fragments.map (fun fragment => newlineCount fragment.source)).take i).sum := by
    simp [fragOffset, List.map_take]
  have hcnt : fragCount pkg i
      = (pkg.fragments.map (fun fragment => newlineCount fragment.source)).getD i 0 := by
    simp [fragCount, List.getD_eq_getElem?_getD, List.getElem?_eq_getElem hlen]
  have hcounts : lineCounts pkg.fragments
      = (pkg.fragments.map (fun fragment => newlineCount fragment.source)).map
          (fun n => n % 2 ^ 32) := by
    simp [lineCounts]
  have hloop := fixupLoop_spec pMessage.line
    (pkg.fragments.map (fun fragment => newlineCount fragment.source)) i 0 0
    (by simpa using hlen) (by rw [Nat.zero_add, ← hoff]; exact hlo)
    (by rw [Nat.zero_add, ← hoff, ← hcnt]; exact hhi)
    (by rw [Nat.zero_add, ← hoff, ← hcnt]; exact hfit) (by omega)
  rw [Nat.zero_add, Nat.zero_add, ← hoff, ← hcounts] at hloop
  unfold fixupMessage
  simp only [hloop]

/-- C1 (diagnostic remap), amended by the bounds of the machine integers. In
`gl_compile_shader`, for a creatable stage kind and an info log that the code retrieves and
parses (`0 < GL_INFO_LOG_LENGTH < INT_MAX`, so that the buffer of line 177 is constructed):
when the `k`-th parsed message has a 0-based line `L` with
`offset(i) <= L < offset(i) + count(i)` for a fragment `i` whose range is representable
(`offset(i) + count(i) < 2^31` for the `int32_t` comparison, `i < 2^32` for the `uint32_t`
fragment counter), the `k`-th message of the result has `fragmentIndex = i` and
`line = L - offset(i)`. The counts are those of the source texts. -/
theorem remap_to_fragment (U : StringUtils) (env : CompileEnv) (type : ShaderType)
    (pkg : ShaderPackage) (k i : Nat) (pMessage : CompileMessage)
    (htype : type = ShaderType.Vertex ∨ type = ShaderType.Geometry ∨ type = ShaderType.Pixel)
    (hlog : 0 < env.InfoLogLength) (hbuf : env.InfoLogLength < 2 ^ 31 - 1)
    (hparsed : (compile_parse_shader_errors U { fileSource := pkg.path } env.infoLog).messages[k]?
      = some pMessage)
    (hlo : ((fragOffset pkg i : Nat) : Int) ≤ pMessage.line)
    (hhi : pMessage.line < ((fragOffset pkg i + fragCount pkg i : Nat) : Int))
    (hfit : fragOffset pkg i + fragCount pkg i < 2 ^ 31) (hidx : i < 2 ^ 32) :
    ((gl_compile_shader U env type pkg).1.messages[k]?).map
        (fun m => (m.fragmentIndex, m.line))
      = some (i, pMessage.line - fragOffset pkg i) := by
  have hpos : 0 < fragCount pkg i := by omega
  have hfrag : pkg.fragments ≠ [] := by
    intro hnil
    simp [fragCount, hnil] at hpos
  rw [compile_parse_shader_errors_eq] at hparsed
  simp only [List.nil_append] at hparsed
  rw [gl_compile_shader_messages U env type pkg htype hfrag hlog hbuf, List.getElem?_map,
    hparsed]
  simp only [Option.map_some']
  rw [fixupMessage_in_range pkg.path pkg pMessage i hlo hhi hfit hidx]

theorem remap_to_fragment_witness :
    ((gl_compile_shader refUtils (sampleCompileEnv "2") ShaderType.Vertex
        samplePackage).1.messages[0]?).map (fun m => (m.fragmentIndex, m.line))
      = some (1, (parse_message refUtils "shader.glsl" "shader.glsl(2): error").line
                  - fragOffset samplePackage 1) :=
  remap_to_fragment refUtils (sampleCompileEnv "2") ShaderType.Vertex samplePackage 0 1
    (parse_message refUtils "shader.glsl" "shader.glsl(2): error")
    (Or.inl rfl) (by decide) (by decide) (by decide) (by decide) (by decide) (by decide)
    (by decide)

/-! ## Positions returned by the searches -/

theorem find_first_of_from_bounds (c : Char) :
    ∀ (l : List Char) (i j : Nat), find_first_of_from c l i = some j →
      i ≤ j ∧ j < i + l.length := by
  intro l
  induction l with
  | nil => intro i j h; simp [find_first_of_from] at h
  | cons x xs ih =>
    intro i j h
    unfold find_first_of_from at h
    by_cases hx : x = c
    · rw [if_pos hx] at h
      injection h with h
      subst h
      simp
    · rw [if_neg hx] at h
      have := ih (i + 1) j h
      simp only [List.length_cons]
      omega

theorem find_from_bounds (pat : List Char) :
    ∀ (l : List Char) (i j : Nat), find_from pat l i = some j → i ≤ j ∧ j ≤ i + l.length := by
  intro l
  induction l with
  | nil =>
    intro i j h
    unfold find_from at h
    by_cases hp : pat = []
    · rw [if_pos hp] at h
      injection h with h
      subst h
      simp
    · rw [if_neg hp] at h
      cases h
  | cons x xs ih =>
    intro i j h
    unfold find_from at h
    by_cases hx : pat.isPrefixOf (x :: xs) = true
    · rw [if_pos hx] at h
      injection h with h
      subst h
      simp
    · rw [if_neg hx] at h
      have := ih (i + 1) j h
      simp only [List.length_cons]
      omega

/-- A position returned by `find_first_of` lies inside the string. -/
theorem find_first_of_lt (s : String) (c : Char) (b : Nat) (h : find_first_of s c = some b) :
    b < s.data.length := by
  have := find_first_of_from_bounds c s.data 0 b h
  omega

/-- A position returned by `find` lies between the start position and the size. -/
theorem find_bounds (s pat : String) (pos j : Nat) (h : find s pat pos = some j) :
    pos ≤ j ∧ j ≤ s.data.length := by
  unfold find at h
  by_cases hlen : s.data.length < pos
  · rw [if_pos hlen] at h
    cases h
  · rw [if_neg hlen] at h
    have := find_from_bounds pat.data (s.data.drop pos) pos j h
    simp only [List.length_drop] at this
    omega

/-- The test `if (lastBracket)` on line 46 never fails: the closing bracket is searched from
the position of the opening one, so it is found behind it or not at all. -/
theorem find_close_ne_zero (error : String) (b : Nat)
    (hopen : find_first_of error '(' = some b) : find error ")" b ≠ some 0 := by
  intro hclose
  have hb : b = 0 := by
    have := (find_bounds error ")" b 0 hclose).1
    omega
  subst hb
  unfold find at hclose
  unfold find_first_of at hopen
  simp only [Nat.not_lt_zero, if_false, List.drop_zero] at hclose
  cases hdata : error.data with
  | nil =>
    rw [hdata] at hopen
    simp [find_first_of_from] at hopen
  | cons x xs =>
    rw [hdata] at hopen hclose
    unfold find_first_of_from at hopen
    unfold find_from at hclose
    by_cases hx : x = '('
    · by_cases hp : (")".data).isPrefixOf (x :: xs) = true
      · subst hx
        simp [List.isPrefixOf] at hp
      · rw [if_neg hp] at hclose
        have := (find_from_bounds _ _ _ _ hclose).1
        omega
    · rw [if_neg hx] at hopen
      have := (find_first_of_from_bounds _ _ _ _ hopen).1
      omega

/-! ## The three ways through the `try` body -/

/-- No opening bracket: lines 76-82. -/
theorem parse_try_no_open (U : StringUtils) (error : String) (pMsg : CompileMessage)
    (hopen : find_first_of error '(' = none) :
    parse_try U error pMsg
      = Except.ok { pMsg with text := error, line := 0, range := (0, 0),
                              msgType := CompileMessageType.Error } := by
  unfold parse_try
  rw [hopen]

/-- An opening bracket and no closing one behind it: `substr` on line 50 throws, after
line 49 has assigned `filePath`. -/
theorem parse_try_no_close (U : StringUtils) (error : String) (pMsg : CompileMessage)
    (b : Nat) (hopen : find_first_of error '(' = some b) (hclose : find error ")" b = none) :
    parse_try U error pMsg
      = Except.error { pMsg with filePath := U.string_trim (String.mk (error.data.take b)) } := by
  unfold parse_try
  rw [hopen]
  simp only [hclose, substr, Nat.not_lt_zero, if_false, List.drop_zero]
  simp

/-- Both brackets found: lines 49-52 assign `filePath` and `text` without throwing, and the
result is that of the conversions of lines 54-73. -/
theorem parse_try_bracketed (U : StringUtils) (error : String) (pMsg : CompileMessage)
    (b lb : Nat) (hopen : find_first_of error '(' = some b)
    (hclose : find error ")" b = some lb) :
    parse_try U error pMsg
      = parse_numbers U (numVecOf U error b lb)
          { pMsg with
              filePath := U.string_trim (String.mk (error.data.take b)),
              text := U.string_trim_chars
                (String.mk ((error.data.drop lb).take (error.data.length - lb)))
                " \t():\r\n\x0c\x0b" } := by
  have hne : lb ≠ 0 := by
    intro h0
    exact find_close_ne_zero error b hopen (by rw [hclose, h0])
  have hlb := (find_bounds error ")" b lb hclose).2
  have hb := find_first_of_lt error '(' b hopen
  unfold parse_try
  rw [hopen]
  simp only [hclose, substr, sizeDiff, Option.some.injEq, hne, if_false, Nat.not_lt_zero,
    List.drop_zero, Nat.not_lt.mpr hlb, Nat.not_lt.mpr (Nat.le_of_lt hb), Option.getD_some,
    numVecOf]

/-! ## The conversions of lines 54-73 -/

/-- Whether it throws or not, `parse_numbers` only assigns `line` and `range`. -/
theorem parse_numbers_frame (U : StringUtils) (numVec : List String) (pMsg out : CompileMessage)
    (h : parse_numbers U numVec pMsg = Except.ok out ∨
         parse_numbers U numVec pMsg = Except.error out) :
    out.rawText = pMsg.rawText ∧ out.fragmentIndex = pMsg.fragmentIndex ∧
    out.filePath = pMsg.filePath ∧ out.text = pMsg.text ∧ out.msgType = pMsg.msgType := by
  unfold parse_numbers at h
  repeat' split at h
  all_goals
    rcases h with h | h <;> first
      | (injection h with h; subst h; exact ⟨rfl, rfl, rfl, rfl, rfl⟩)
      | cases h

/-- A conversion that fails makes `parse_numbers` throw. -/
theorem parse_numbers_throws (U : StringUtils) (numVec : List String) (pMsg : CompileMessage)
    (h : numbersConvert U numVec = false) :
    ∃ partly, parse_numbers U numVec pMsg = Except.error partly := by
  unfold numbersConvert at h
  unfold parse_numbers
  repeat' split at h
  all_goals try simp only [] at h ⊢
  all_goals repeat' split
  all_goals simp_all

/-- When every conversion succeeds `parse_numbers` returns normally. -/
theorem parse_numbers_returns (U : StringUtils) (numVec : List String) (pMsg : CompileMessage)
    (h : numbersConvert U numVec = true) :
    ∃ out, parse_numbers U numVec pMsg = Except.ok out := by
  unfold numbersConvert at h
  unfold parse_numbers
  repeat' split at h
  all_goals try simp only [] at h ⊢
  all_goals repeat' split
  all_goals simp_all

/-- The line assigned on line 56 survives to the end when nothing throws. -/
theorem parse_numbers_line (U : StringUtils) (first : String) (more : List String)
    (pMsg out : CompileMessage) (n : Int) (hn : stoi first = some n)
    (h : parse_numbers U (first :: more) pMsg = Except.ok out) :
    out.line = max 0 (toInt32 (n - 1)) := by
  simp only [parse_numbers, hn] at h
  repeat' split at h
  all_goals first
    | (injection h with h; subst h; rfl)
    | cases h

/-- The range assigned on lines 63 and 70 when there is a start column and no end column. -/
theorem parse_numbers_single_column (U : StringUtils) (first second colStart : String)
    (rest : List String) (pMsg : CompileMessage) (n c : Int)
    (hn : stoi first = some n) (hsplit : U.string_split second "-" = [colStart])
    (hc : stoi colStart = some c) :
    parse_numbers U (first :: second :: rest) pMsg
      = Except.ok { pMsg with
          line := max 0 (toInt32 (n - 1)),
          range := (max 0 (toInt32 (c - 1)), toInt32 (max 0 (toInt32 (c - 1)) + 1)) } := by
  unfold parse_numbers
  simp only [hn, hsplit, hc]

/-- The result of `std::stoi` is an `int`. -/
theorem stoi_range (s : String) (n : Int) (h : stoi s = some n) :
    -2 ^ 31 ≤ n ∧ n ≤ 2 ^ 31 - 1 := by
  unfold stoi at h
  simp only [] at h
  split_ifs at h <;> injection h with h <;> subst h <;> omega

/-! ## The message of one line -/

/-- The catch block of lines 84-89 or the normal exit, applied to the result of the
conversions: `rawText`, `fragmentIndex` and `msgType` are those of the message passed in. -/
theorem finish_frame (U : StringUtils) (numVec : List String) (error : String)
    (pMsg : CompileMessage) :
    (match parse_numbers U numVec pMsg with
      | Except.ok parsed => parsed
      | Except.error partly =>
        { partly with text := "Failed to parse compiler error:\n" ++ error, line := 0,
                      msgType := CompileMessageType.Error }).rawText = pMsg.rawText ∧
    (match parse_numbers U numVec pMsg with
      | Except.ok parsed => parsed
      | Except.error partly =>
        { partly with text := "Failed to parse compiler error:\n" ++ error, line := 0,
                      msgType := CompileMessageType.Error }).fragmentIndex
      = pMsg.fragmentIndex := by
  cases hnum : parse_numbers U numVec pMsg with
  | ok parsed =>
    have hf := parse_numbers_frame U numVec pMsg parsed (Or.inl hnum)
    exact ⟨hf.1, hf.2.1⟩
  | error partly =>
    have hf := parse_numbers_frame U numVec pMsg partly (Or.inr hnum)
    exact ⟨hf.1, hf.2.1⟩

/-- Every message the parser builds carries its line as `rawText` and has
`fragmentIndex = 0`: the parser never assigns these two fields again. -/
theorem parse_message_frame (U : StringUtils) (fileSource error : String) :
    (parse_message U fileSource error).rawText = error ∧
    (parse_message U fileSource error).fragmentIndex = 0 := by
  unfold parse_message
  simp only []
  cases hopen : find_first_of error '(' with
  | none =>
    rw [parse_try_no_open U error _ hopen]
    exact ⟨rfl, rfl⟩
  | some b =>
    cases hclose : find error ")" b with
    | none =>
      rw [parse_try_no_close U error _ b hopen hclose]
      exact ⟨rfl, rfl⟩
    | some lb =>
      rw [parse_try_bracketed U error _ b lb hopen hclose]
      exact finish_frame U _ error _

/-! ## The linker: short-circuit -/

/-- C2 (link short-circuit). With an Invalid vertex result `gl_link_shaders` returns the
vertex pointer itself, whatever the other two arguments are; otherwise with an Invalid pixel
result it returns the pixel pointer; otherwise with a geometry pointer that is not null and
whose result is Invalid it returns the geometry pointer. In the three cases the heap is the
one passed in (no result was built, none was changed) and no backend call was made (no
program object was created). -/
theorem link_short_circuit (U : StringUtils) (env : LinkEnv) (heap : Heap)
    (spVertex spPixel : Nat) (spGeometry : Option Nat) :
    (∀ vertex, heap[spVertex]? = some vertex → vertex.state = CompileState.Invalid →
      gl_link_shaders U env heap spVertex spGeometry spPixel = some (spVertex, heap, [])) ∧
    (∀ vertex pixel, heap[spVertex]? = some vertex → vertex.state = CompileState.Valid →
      heap[spPixel]? = some pixel → pixel.state = CompileState.Invalid →
      gl_link_shaders U env heap spVertex spGeometry spPixel = some (spPixel, heap, [])) ∧
    (∀ vertex pixel pGeometry geometry,
      heap[spVertex]? = some vertex → vertex.state = CompileState.Valid →
      heap[spPixel]? = some pixel → pixel.state = CompileState.Valid →
      spGeometry = some pGeometry → heap[pGeometry]? = some geometry →
      geometry.state = CompileState.Invalid →
      gl_link_shaders U env heap spVertex spGeometry spPixel = some (pGeometry, heap, [])) := by
  refine ⟨?_, ?_, ?_⟩
  · intro vertex hv hstate
    simp [gl_link_shaders, hv, hstate]
  · intro vertex pixel hv hvs hp hps
    simp [gl_link_shaders, hv, hvs, hp, hps]
  · intro vertex pixel pGeometry geometry hv hvs hp hps hg hgeo hgs
    simp [gl_link_shaders, hv, hvs, hp, hps, hg, hgeo, hgs]

theorem link_short_circuit_witness :
    gl_link_shaders refUtils sampleLinkEnv sampleHeap 2 (some 2) 0 = some (2, sampleHeap, []) ∧
    gl_link_shaders refUtils sampleLinkEnv sampleHeap 0 (some 1) 2 = some (2, sampleHeap, []) ∧
    gl_link_shaders refUtils sampleLinkEnv sampleHeap 0 (some 2) 1 = some (2, sampleHeap, []) :=
  ⟨(link_short_circuit refUtils sampleLinkEnv sampleHeap 2 0 (some 2)).1
      { fileSource := "broken.glsl",
        messages := [{ rawText := "broken.glsl(1): error", text := "error" }],
        state := CompileState.Invalid, Id := 0 } rfl rfl,
   (link_short_circuit refUtils sampleLinkEnv sampleHeap 0 2 (some 1)).2.1
      { fileSource := "quad.vert", state := CompileState.Valid, Id := 3 }
      { fileSource := "broken.glsl",
        messages := [{ rawText := "broken.glsl(1): error", text := "error" }],
        state := CompileState.Invalid, Id := 0 } rfl rfl rfl rfl,
   (link_short_circuit refUtils sampleLinkEnv sampleHeap 0 1 (some 2)).2.2
      { fileSource := "quad.vert", state := CompileState.Valid, Id := 3 }
      { fileSource := "quad.frag", state := CompileState.Valid, Id := 4 } 2
      { fileSource := "broken.glsl",
        messages := [{ rawText := "broken.glsl(1): error", text := "error" }],
        state := CompileState.Invalid, Id := 0 } rfl rfl rfl rfl rfl rfl rfl⟩

/-! ## The parser: one message per line -/

/-- C3 (batch parsing). For every blob, `compile_parse_shader_errors` keeps the messages
already in the result and appends one message per line of the split blob, in the order of
the lines; the message of a line is `parse_message` of that line alone (so it does not depend
on whether another line parses) and its `rawText` is the line. The other fields of the
result are untouched. -/
theorem batch_parsing (U : StringUtils) (pResult : GLCompileResult) (blob : String) :
    (compile_parse_shader_errors U pResult blob).messages
      = pResult.messages ++
          (U.string_split blob "\n").map (parse_message U pResult.fileSource) ∧
    (compile_parse_shader_errors U pResult blob).messages.length
      = pResult.messages.length + (U.string_split blob "\n").length ∧
    (compile_parse_shader_errors U pResult blob).messages.take pResult.messages.length
      = pResult.messages ∧
    ((compile_parse_shader_errors U pResult blob).messages.drop pResult.messages.length).map
        (fun m => m.rawText)
      = U.string_split blob "\n" ∧
    (compile_parse_shader_errors U pResult blob).fileSource = pResult.fileSource ∧
    (compile_parse_shader_errors U pResult blob).state = pResult.state ∧
    (compile_parse_shader_errors U pResult blob).Id = pResult.Id := by
  have hraw : ∀ fileSource error, (parse_message U fileSource error).rawText = error :=
    fun fileSource error => (parse_message_frame U fileSource error).1
  rw [compile_parse_shader_errors_eq]
  refine ⟨rfl, by simp, by simp, ?_, rfl, rfl, rfl⟩
  simp [List.map_map, Function.comp_def, hraw]

/-! ## `gl_compile_shader`: state and handle -/

/-- C4 (state/handle invariant), the path that breaks it. For a creatable stage kind, a
package without fragments and a file that does not open, `gl_compile_shader` returns on
line 146 with `state = Invalid` and `Id` still the id handed out by `glCreateShader`, and it
never calls `glDeleteShader`; with the id 1 the result is Invalid with a non-zero handle. -/
theorem unopened_file_keeps_handle (U : StringUtils) (shaderId : Nat)
    (Result InfoLogLength : Int) (infoLog path : String) (mainFragment : Nat) :
    (∀ type ∈ [ShaderType.Vertex, ShaderType.Geometry, ShaderType.Pixel],
      gl_compile_shader U ⟨shaderId, none, Result, InfoLogLength, infoLog⟩ type
          { fragments := [], mainFragment := mainFragment, path := path }
        = ({ fileSource := path,
             messages := [CompileMessage.ofPathMessage CompileMessageType.Error path
                            "Couldn't open file"],
             state := CompileState.Invalid, Id := shaderId },
           [GLCall.glCreateShader type, GLCall.openFile path])) ∧
    (gl_compile_shader refUtils ⟨1, none, GL_FALSE, 0, ""⟩ ShaderType.Vertex
        { path := "missing.glsl" }).1.state = CompileState.Invalid ∧
    (gl_compile_shader refUtils ⟨1, none, GL_FALSE, 0, ""⟩ ShaderType.Vertex
        { path := "missing.glsl" }).1.Id = 1 := by
  refine ⟨?_, rfl, rfl⟩
  intro type htype
  simp only [List.mem_cons, List.mem_singleton, List.not_mem_nil, or_false] at htype
  rcases htype with h | h | h <;> subst h <;> rfl

/-- C5 (totality of the remap), the line that breaks it. In the package of fragments `a⏎`,
`b⏎`, `c` the line 2 of the concatenated text is the only line of fragment 2
(`offset(2) = 2`), and `2 <= total = 2`. The loop of lines 188-198 takes no branch for it: the
message keeps `line = 2` and the `fragmentIndex` it had, 0 for a parsed message, although
fragment 0 has `count(0) = 1`. -/
theorem final_line_not_remapped :
    (∀ m : CompileMessage,
      fixupMessage "shader.glsl" (lineCounts samplePackage.fragments) { m with line := 2 }
        = { m with line := 2, filePath := "shader.glsl" }) ∧
    (gl_compile_shader refUtils (sampleCompileEnv "3") ShaderType.Vertex
        samplePackage).1.messages.map (fun m => (m.fragmentIndex, m.line)) = [(0, 2)] ∧
    fragOffset samplePackage 2 = 2 ∧
    fragOffset samplePackage 3 = 2 ∧
    fragCount samplePackage 0 = 1 ∧
    ¬ ((2 : Int) ≤ fragCount samplePackage 0) := by
  refine ⟨fun m => ?_, by decide, by decide, by decide, by decide, by decide⟩
  have hloop : fixupLoop 2 (lineCounts samplePackage.fragments) 0 0 = none := by decide
  unfold fixupMessage
  simp only [hloop]

/-- C8 (unknown stage kind). For every package and whatever the backend would answer,
compiling with `ShaderType::Unknown` returns a result with `state = Invalid`, `Id = 0` and
exactly one message, and the trace of calls is empty: no shader object was created, no file
was opened and no compile call was issued. -/
theorem unknown_stage_rejected (U : StringUtils) (env : CompileEnv) (pkg : ShaderPackage) :
    (gl_compile_shader U env ShaderType.Unknown pkg).1.state = CompileState.Invalid ∧
    (gl_compile_shader U env ShaderType.Unknown pkg).1.Id = 0 ∧
    (gl_compile_shader U env ShaderType.Unknown pkg).1.messages.length = 1 ∧
    (gl_compile_shader U env ShaderType.Unknown pkg).1.fileSource = pkg.path ∧
    (gl_compile_shader U env ShaderType.Unknown pkg).2 = [] :=
  ⟨rfl, rfl, rfl, rfl, rfl⟩

/-! ## The parser: locations -/

/-- C6 (location parsing), amended by the bound of `int`. For a diagnostic line with an
opening bracket at `b`, a closing bracket at `lb` behind it, whose bracket splits into
`first :: more`, whose numbers all convert and whose first number is `n > INT_MIN`: the
emitted message has `line = max(0, n - 1)`; and when the second entry holds a single start
column `c > INT_MIN` and no `-colEnd` part, the stored range is
`(max(0, c - 1), max(0, c - 1) + 1)`, so `end = start + 1`. -/
theorem location_parsing (U : StringUtils) (fileSource error : String) (b lb : Nat)
    (first : String) (more : List String) (n : Int)
    (hopen : find_first_of error '(' = some b)
    (hclose : find error ")" b = some lb)
    (hnums : numVecOf U error b lb = first :: more)
    (hconv : numbersConvert U (first :: more) = true)
    (hn : stoi first = some n) (hrep : -2 ^ 31 < n) :
    (parse_message U fileSource error).line = max 0 (n - 1) ∧
    ∀ (second colStart : String) (rest : List String) (c : Int),
      more = second :: rest → U.string_split second "-" = [colStart] →
      stoi colStart = some c → -2 ^ 31 < c →
      (parse_message U fileSource error).range.1 = max 0 (c - 1) ∧
      (parse_message U fileSource error).range.2
        = (parse_message U fileSource error).range.1 + 1 := by
  have hnr := stoi_range first n hn
  have hwrap : toInt32 (n - 1) = n - 1 := toInt32_of_range _ (by omega) (by omega)
  constructor
  · unfold parse_message
    simp only []
    rw [parse_try_bracketed U error _ b lb hopen hclose, hnums]
    obtain ⟨out, hout⟩ := parse_numbers_returns U (first :: more)
      { rawText := error, text := U.string_trim_chars
          (String.mk ((error.data.drop lb).take (error.data.length - lb)))
          " \t():\r\n\x0c\x0b",
        filePath := U.string_trim (String.mk (error.data.take b)) } hconv
    rw [hout]
    simp only []
    rw [parse_numbers_line U first more _ out n hn hout, hwrap]
  · intro second colStart rest c hmore hsplit hc hcrep
    have hcr := stoi_range colStart c hc
    have hcwrap : toInt32 (c - 1) = c - 1 := toInt32_of_range _ (by omega) (by omega)
    have hstart : max (0 : Int) (c - 1) + 1 < 2 ^ 31 := by
      rcases max_cases (0 : Int) (c - 1) with ⟨h, _⟩ | ⟨h, _⟩ <;> rw [h] <;> omega
    have hstart0 : (0 : Int) ≤ max (0 : Int) (c - 1) := le_max_left _ _
    have hewrap : toInt32 (max (0 : Int) (c - 1) + 1) = max (0 : Int) (c - 1) + 1 :=
      toInt32_of_range _ (by omega) hstart
    unfold parse_message
    simp only []
    rw [parse_try_bracketed U error _ b lb hopen hclose, hnums, hmore,
      parse_numbers_single_column U first second colStart rest _ n c hn hsplit hc]
    simp only [hcwrap, hewrap, and_self]

theorem location_parsing_witness :
    (parse_message refUtils "quad.frag" "shader.glsl(12, 5): error").line = max 0 (12 - 1) ∧
    (parse_message refUtils "quad.frag" "shader.glsl(12, 5): error").range.1 = max 0 (5 - 1) ∧
    (parse_message refUtils "quad.frag" "shader.glsl(12, 5): error").range.2
      = (parse_message refUtils "quad.frag" "shader.glsl(12, 5): error").range.1 + 1 :=
  ⟨(location_parsing refUtils "quad.frag" "shader.glsl(12, 5): error" 11 17 "12" [" 5"] 12
      (by decide) (by decide) (by decide) (by decide) (by decide) (by decide)).1,
   (location_parsing refUtils "quad.frag" "shader.glsl(12, 5): error" 11 17 "12" [" 5"] 12
      (by decide) (by decide) (by decide) (by decide) (by decide) (by decide)).2
      " 5" " 5" [] 5 rfl (by decide) (by decide) (by decide)⟩

/-! ## The parser: fallback -/

/-- The catch block of lines 84-89: line 0, severity Error, the raw line kept in `rawText`
and appended to the text. -/
theorem catch_fallback (error : String) (partly : CompileMessage)
    (hraw : partly.rawText = error) :
    ({ partly with text := "Failed to parse compiler error:\n" ++ error, line := 0,
                   msgType := CompileMessageType.Error } : CompileMessage).line = 0 ∧
    ({ partly with text := "Failed to parse compiler error:\n" ++ error, line := 0,
                   msgType := CompileMessageType.Error } : CompileMessage).msgType
      = CompileMessageType.Error ∧
    ({ partly with text := "Failed to parse compiler error:\n" ++ error, line := 0,
                   msgType := CompileMessageType.Error } : CompileMessage).rawText = error ∧
    error.data <:+:
      ({ partly with text := "Failed to parse compiler error:\n" ++ error, line := 0,
                     msgType := CompileMessageType.Error } : CompileMessage).text.data := by
  refine ⟨rfl, rfl, hraw, ?_⟩
  simp only [String.data_append]
  exact (List.suffix_append _ _).isInfix

/-- The message of a line that fails to parse, in each of the three ways. -/
theorem parse_message_fallback (U : StringUtils) (fileSource error : String)
    (hfail : find_first_of error '(' = none ∨
      (∃ b lb, find_first_of error '(' = some b ∧ find error ")" b = some lb ∧
        numbersConvert U (numVecOf U error b lb) = false) ∨
      (∃ b, find_first_of error '(' = some b ∧ find error ")" b = none)) :
    (parse_message U fileSource error).line = 0 ∧
    (parse_message U fileSource error).msgType = CompileMessageType.Error ∧
    (parse_message U fileSource error).rawText = error ∧
    error.data <:+: (parse_message U fileSource error).text.data := by
  unfold parse_message
  simp only []
  rcases hfail with hopen | ⟨b, lb, hopen, hclose, hconv⟩ | ⟨b, hopen, hclose⟩
  · rw [parse_try_no_open U error _ hopen]
    exact ⟨rfl, rfl, rfl, List.infix_refl _⟩
  · rw [parse_try_bracketed U error _ b lb hopen hclose]
    obtain ⟨partly, hpartly⟩ := parse_numbers_throws U (numVecOf U error b lb)
      { rawText := error, text := U.string_trim_chars
          (String.mk ((error.data.drop lb).take (error.data.length - lb)))
          " \t():\r\n\x0c\x0b",
        filePath := U.string_trim (String.mk (error.data.take b)) } hconv
    rw [hpartly]
    exact catch_fallback error partly
      (parse_numbers_frame U _ _ partly (Or.inr hpartly)).1
  · rw [parse_try_no_close U error _ b hopen hclose]
    exact catch_fallback error _ rfl

/-- C7 (fallback on parse failure). For a diagnostic line `error` of the split blob that has
no `(`, or has a `(` and a `)` behind it but a bracketed number that fails to convert, or has
a `(` and no `)` behind it: the parser appends exactly one message for that line, at the
position of the line, with `line = 0`, severity Error, `rawText` equal to the line and a
`text` that contains the line unchanged. -/
theorem parse_failure_fallback (U : StringUtils) (pResult : GLCompileResult)
    (blob error : String) (before after : List String)
    (hsplit : U.string_split blob "\n" = before ++ error :: after)
    (hfail : find_first_of error '(' = none ∨
      (∃ b lb, find_first_of error '(' = some b ∧ find error ")" b = some lb ∧
        numbersConvert U (numVecOf U error b lb) = false) ∨
      (∃ b, find_first_of error '(' = some b ∧ find error ")" b = none)) :
    ∃ m : CompileMessage,
      (compile_parse_shader_errors U pResult blob).messages
        = pResult.messages ++ before.map (parse_message U pResult.fileSource) ++
            m :: after.map (parse_message U pResult.fileSource) ∧
      m.line = 0 ∧ m.msgType = CompileMessageType.Error ∧ m.rawText = error ∧
      error.data <:+: m.text.data := by
  refine ⟨parse_message U pResult.fileSource error, ?_,
    parse_message_fallback U pResult.fileSource error hfail⟩
  rw [compile_parse_shader_errors_eq, hsplit]
  simp

theorem parse_failure_fallback_witness :
    (∃ m : CompileMessage,
      (compile_parse_shader_errors refUtils { fileSource := "quad.frag" }
          "shader.glsl(3): first\nERROR: no bracket\nshader.glsl(9): last").messages
        = [] ++ ["shader.glsl(3): first"].map (parse_message refUtils "quad.frag") ++
            m :: ["shader.glsl(9): last"].map (parse_message refUtils "quad.frag") ∧
      m.line = 0 ∧ m.msgType = CompileMessageType.Error ∧ m.rawText = "ERROR: no bracket" ∧
      "ERROR: no bracket".data <:+: m.text.data) ∧
    (∃ m : CompileMessage,
      (compile_parse_shader_errors refUtils { fileSource := "quad.frag" }
          "shader.glsl(x7): bad number").messages
        = [] ++ [].map (parse_message refUtils "quad.frag") ++
            m :: [].map (parse_message refUtils "quad.frag") ∧
      m.line = 0 ∧ m.msgType = CompileMessageType.Error ∧
      m.rawText = "shader.glsl(x7): bad number" ∧
      "shader.glsl(x7): bad number".data <:+: m.text.data) ∧
    (∃ m : CompileMessage,
      (compile_parse_shader_errors refUtils { fileSource := "quad.frag" }
          "shader.glsl(7: open").messages
        = [] ++ [].map (parse_message refUtils "quad.frag") ++
            m :: [].map (parse_message refUtils "quad.frag") ∧
      m.line = 0 ∧ m.msgType = CompileMessageType.Error ∧
      m.rawText = "shader.glsl(7: open" ∧
      "shader.glsl(7: open".data <:+: m.text.data) :=
  ⟨parse_failure_fallback refUtils { fileSource := "quad.frag" }
      "shader.glsl(3): first\nERROR: no bracket\nshader.glsl(9): last" "ERROR: no bracket"
      ["shader.glsl(3): first"] ["shader.glsl(9): last"] (by decide) (Or.inl (by decide)),
   parse_failure_fallback refUtils { fileSource := "quad.frag" }
      "shader.glsl(x7): bad number" "shader.glsl(x7): bad number" [] [] (by decide)
      (Or.inr (Or.inl ⟨11, 14, by decide, by decide, by decide⟩)),
   parse_failure_fallback refUtils { fileSource := "quad.frag" }
      "shader.glsl(7: open" "shader.glsl(7: open" [] [] (by decide)
      (Or.inr (Or.inr ⟨11, by decide, by decide⟩))⟩

/-! ## The linker: outcome and attribution -/

/-- The search `find(pat)` from position 0 succeeds exactly when `pat` is a substring. -/
theorem find_from_isSome (pat : List Char) :
    ∀ (l : List Char) (i : Nat), (find_from pat l i).isSome = true ↔ pat <:+: l := by
  intro l
  induction l with
  | nil =>
    intro i
    unfold find_from
    by_cases hp : pat = []
    · simp [hp]
    · simp [hp]
  | cons x xs ih =>
    intro i
    unfold find_from
    rw [List.infix_cons_iff]
    by_cases hx : pat.isPrefixOf (x :: xs) = true
    · rw [if_pos hx]
      simp only [Option.isSome_some, true_iff]
      exact Or.inl (List.isPrefixOf_iff_prefix.mp hx)
    · rw [if_neg hx, ih (i + 1)]
      constructor
      · exact Or.inr
      · rintro (h | h)
        · exact absurd (List.isPrefixOf_iff_prefix.mpr h) hx
        · exact h

theorem find_isSome_iff_substring (s pat : String) :
    (find s pat 0).isSome = true ↔ pat.data <:+: s.data := by
  unfold find
  simp only [Nat.not_lt_zero, if_false, List.drop_zero]
  exact find_from_isSome pat.data s.data 0

/-- State and handle of the result built by lines 235-293. -/
theorem link_result_outcome (U : StringUtils) (env : LinkEnv) (vertex pixel : GLCompileResult)
    (geometryId : Option Nat) :
    (env.Result = GL_TRUE →
      (link_result U env vertex pixel geometryId).1.state = CompileState.Valid ∧
      (link_result U env vertex pixel geometryId).1.Id = env.ProgramID ∧
      GLCall.glDeleteProgram env.ProgramID ∉ (link_result U env vertex pixel geometryId).2) ∧
    (env.Result ≠ GL_TRUE →
      (link_result U env vertex pixel geometryId).1.state = CompileState.Invalid ∧
      (link_result U env vertex pixel geometryId).1.Id = 0 ∧
      GLCall.glDeleteProgram env.ProgramID ∈ (link_result U env vertex pixel geometryId).2) ∧
    GLCall.glCreateProgram ∈ (link_result U env vertex pixel geometryId).2 := by
  unfold link_result link_calls
  refine ⟨?_, ?_, ?_⟩
  · intro hres
    by_cases hlog : 0 < env.InfoLogLength <;> cases geometryId <;>
      simp [hres, hlog, compile_parse_shader_errors_eq]
  · intro hres
    by_cases hlog : 0 < env.InfoLogLength <;> cases geometryId <;>
      simp [hres, hlog, compile_parse_shader_errors_eq]
  · by_cases hres : env.Result = GL_TRUE <;> by_cases hlog : 0 < env.InfoLogLength <;>
      simp [hres, hlog]

/-- The messages of the result built by lines 235-293 when the info log is not empty. -/
theorem link_result_messages (U : StringUtils) (env : LinkEnv) (vertex pixel : GLCompileResult)
    (geometryId : Option Nat) (hlog : 0 < env.InfoLogLength) :
    (link_result U env vertex pixel geometryId).1.messages
      = (compile_parse_shader_errors U { fileSource := vertex.fileSource } env.infoLog).messages.map
          (attributeMessage U vertex.fileSource pixel.fileSource) := by
  unfold link_result link_calls
  by_cases hres : env.Result = GL_TRUE <;> simp [hres, hlog]

/-- With Valid vertex and pixel results, a geometry pointer that is null or points to a
Valid result, and a log length below `INT_MAX`, `gl_link_shaders` allocates the result of
`link_result`. -/
theorem gl_link_shaders_linked (U : StringUtils) (env : LinkEnv) (heap : Heap)
    (spVertex spPixel : Nat) (spGeometry : Option Nat) (vertex pixel : GLCompileResult)
    (hv : heap[spVertex]? = some vertex) (hvs : vertex.state = CompileState.Valid)
    (hp : heap[spPixel]? = some pixel) (hps : pixel.state = CompileState.Valid)
    (hg : spGeometry = none ∨ ∃ pGeometry geometry, spGeometry = some pGeometry ∧
      heap[pGeometry]? = some geometry ∧ geometry.state = CompileState.Valid)
    (hbuf : env.InfoLogLength < 2 ^ 31 - 1) :
    ∃ geometryId,
      gl_link_shaders U env heap spVertex spGeometry spPixel
        = some (heap.length, heap ++ [(link_result U env vertex pixel geometryId).1],
                (link_result U env vertex pixel geometryId).2) := by
  have hthrow := logBufferThrows_of_lt env.InfoLogLength hbuf
  rcases hg with hg | ⟨pGeometry, geometry, hg, hgeo, hgs⟩
  · exact ⟨none, by simp [gl_link_shaders, link_program, hthrow, hv, hvs, hp, hps, hg]⟩
  · exact ⟨some geometry.Id,
      by simp [gl_link_shaders, link_program, hthrow, hv, hvs, hp, hps, hg, hgeo, hgs]⟩

/-- With Valid stage results and a log buffer that cannot be constructed, the exception of
line 257 leaves `gl_link_shaders`: no result is returned. -/
theorem gl_link_shaders_thrown (U : StringUtils) (env : LinkEnv) (heap : Heap)
    (spVertex spPixel : Nat) (spGeometry : Option Nat) (vertex pixel : GLCompileResult)
    (hv : heap[spVertex]? = some vertex) (hvs : vertex.state = CompileState.Valid)
    (hp : heap[spPixel]? = some pixel) (hps : pixel.state = CompileState.Valid)
    (hg : spGeometry = none ∨ ∃ pGeometry geometry, spGeometry = some pGeometry ∧
      heap[pGeometry]? = some geometry ∧ geometry.state = CompileState.Valid)
    (hthrow : logBufferThrows env.InfoLogLength = true) :
    gl_link_shaders U env heap spVertex spGeometry spPixel = none := by
  rcases hg with hg | ⟨pGeometry, geometry, hg, hgeo, hgs⟩
  · simp [gl_link_shaders, link_program, hthrow, hv, hvs, hp, hps, hg]
  · simp [gl_link_shaders, link_program, hthrow, hv, hvs, hp, hps, hg, hgeo, hgs]

/-- C9 (link outcome), amended by the bound of `int`. With Valid vertex and pixel results
and a geometry pointer that is null or points to a Valid result, for every backend answer
with `GL_INFO_LOG_LENGTH < INT_MAX` (so that the buffer of line 257 is constructed, when it
is asked for) `gl_link_shaders` returns a pointer
to a result that did not exist before the call. When the link status is `GL_TRUE` that
result has `state = Valid` and `Id` the id of the program created, and the program is not
deleted; otherwise it has `state = Invalid` and `Id = 0`, and the program is deleted. In
both cases every result that was on the heap, the three stage results among them, is as it
was. -/
theorem link_outcome (U : StringUtils) (env : LinkEnv) (heap : Heap)
    (spVertex spPixel : Nat) (spGeometry : Option Nat) (vertex pixel : GLCompileResult)
    (hv : heap[spVertex]? = some vertex) (hvs : vertex.state = CompileState.Valid)
    (hp : heap[spPixel]? = some pixel) (hps : pixel.state = CompileState.Valid)
    (hg : spGeometry = none ∨ ∃ pGeometry geometry, spGeometry = some pGeometry ∧
      heap[pGeometry]? = some geometry ∧ geometry.state = CompileState.Valid)
    (hbuf : env.InfoLogLength < 2 ^ 31 - 1) :
    ∃ (result : GLCompileResult) (after : Heap) (trace : List GLCall),
      gl_link_shaders U env heap spVertex spGeometry spPixel
        = some (heap.length, after, trace) ∧
      heap[heap.length]? = none ∧ after[heap.length]? = some result ∧
      GLCall.glCreateProgram ∈ trace ∧
      (env.Result = GL_TRUE →
        result.state = CompileState.Valid ∧ result.Id = env.ProgramID ∧
        GLCall.glDeleteProgram env.ProgramID ∉ trace) ∧
      (env.Result ≠ GL_TRUE →
        result.state = CompileState.Invalid ∧ result.Id = 0 ∧
        GLCall.glDeleteProgram env.ProgramID ∈ trace) ∧
      (∀ (p : Nat) (r : GLCompileResult), heap[p]? = some r → after[p]? = some r) := by
  obtain ⟨geometryId, hlink⟩ :=
    gl_link_shaders_linked U env heap spVertex spPixel spGeometry vertex pixel hv hvs hp hps hg
      hbuf
  have hout := link_result_outcome U env vertex pixel geometryId
  refine ⟨(link_result U env vertex pixel geometryId).1, _, _, hlink, ?_, ?_, hout.2.2,
    hout.1, hout.2.1, ?_⟩
  · exact List.getElem?_eq_none (Nat.le_refl _)
  · simp
  · intro p r hpr
    have hlt : p < heap.length := by
      by_contra hge
      rw [List.getElem?_eq_none (by omega)] at hpr
      cases hpr
    rw [List.getElem?_append_left hlt]
    exact hpr

theorem link_outcome_witness :
    ∃ (result : GLCompileResult) (after : Heap) (trace : List GLCall),
      gl_link_shaders refUtils sampleLinkEnv sampleHeap 0 none 1
        = some (sampleHeap.length, after, trace) ∧
      sampleHeap[sampleHeap.length]? = none ∧ after[sampleHeap.length]? = some result ∧
      GLCall.glCreateProgram ∈ trace ∧
      (sampleLinkEnv.Result = GL_TRUE →
        result.state = CompileState.Valid ∧ result.Id = sampleLinkEnv.ProgramID ∧
        GLCall.glDeleteProgram sampleLinkEnv.ProgramID ∉ trace) ∧
      (sampleLinkEnv.Result ≠ GL_TRUE →
        result.state = CompileState.Invalid ∧ result.Id = 0 ∧
        GLCall.glDeleteProgram sampleLinkEnv.ProgramID ∈ trace) ∧
      (∀ (p : Nat) (r : GLCompileResult), sampleHeap[p]? = some r → after[p]? = some r) :=
  link_outcome refUtils sampleLinkEnv sampleHeap 0 1 none
    { fileSource := "quad.vert", state := CompileState.Valid, Id := 3 }
    { fileSource := "quad.frag", state := CompileState.Valid, Id := 4 }
    rfl rfl rfl rfl (Or.inl rfl) (by decide)

/-- C9, a backend answer on which the claim as first stated fails. Vertex and pixel results
are Valid and no geometry stage is passed, but the backend reports
`GL_INFO_LOG_LENGTH = INT_MAX`: the size `InfoLogLength + 1` of the buffer of line 257 wraps,
the construction throws and the exception leaves `gl_link_shaders`. No result is returned,
Valid or Invalid, and the calls made end with the two status queries: the program created
is neither detached from nor deleted. -/
theorem link_log_overflow :
    sampleHeap[0]?.map (fun stage => stage.state) = some CompileState.Valid ∧
    sampleHeap[1]?.map (fun stage => stage.state) = some CompileState.Valid ∧
    overflowLinkEnv.InfoLogLength = 2 ^ 31 - 1 ∧
    logBufferThrows overflowLinkEnv.InfoLogLength = true ∧
    gl_link_shaders refUtils overflowLinkEnv sampleHeap 0 none 1 = none ∧
    link_program refUtils overflowLinkEnv
        { fileSource := "quad.vert", state := CompileState.Valid, Id := 3 }
        { fileSource := "quad.frag", state := CompileState.Valid, Id := 4 } none
      = Except.error [GLCall.glCreateProgram, GLCall.glAttachShader 9 3,
          GLCall.glAttachShader 9 4, GLCall.glLinkProgram 9, GLCall.glGetProgramiv 9,
          GLCall.glGetProgramiv 9] := by
  refine ⟨by decide, by decide, by decide, by decide, by decide, rfl⟩

/-- C10 (link diagnostic attribution). With Valid stage results and a link info log that
the code retrieves and parses (`0 < GL_INFO_LOG_LENGTH < INT_MAX`; otherwise no message is
produced from the blob: the block of line 255 is skipped, or the buffer of line 257 cannot be
constructed), the messages of the new result are the parsed messages of the blob, one for one and in
order; the `k`-th one has the `rawText` and the `line` the parser gave it (no fragment remap),
`fragmentIndex = 0`, and its `filePath` is the vertex stage's origin path when the
lower-cased `rawText` contains `vertex`, the pixel stage's origin path when it does not. -/
theorem link_attribution (U : StringUtils) (env : LinkEnv) (heap : Heap)
    (spVertex spPixel : Nat) (spGeometry : Option Nat) (vertex pixel : GLCompileResult)
    (hv : heap[spVertex]? = some vertex) (hvs : vertex.state = CompileState.Valid)
    (hp : heap[spPixel]? = some pixel) (hps : pixel.state = CompileState.Valid)
    (hg : spGeometry = none ∨ ∃ pGeometry geometry, spGeometry = some pGeometry ∧
      heap[pGeometry]? = some geometry ∧ geometry.state = CompileState.Valid)
    (hlog : 0 < env.InfoLogLength) (hbuf : env.InfoLogLength < 2 ^ 31 - 1) :
    ∃ (result : GLCompileResult) (after : Heap) (trace : List GLCall),
      gl_link_shaders U env heap spVertex spGeometry spPixel
        = some (heap.length, after, trace) ∧
      after[heap.length]? = some result ∧
      result.messages.length
        = (compile_parse_shader_errors U { fileSource := vertex.fileSource }
            env.infoLog).messages.length ∧
      ∀ (k : Nat) (parsed : CompileMessage),
        (compile_parse_shader_errors U { fileSource := vertex.fileSource }
            env.infoLog).messages[k]? = some parsed →
        ∃ msg, result.messages[k]? = some msg ∧
          msg.rawText = parsed.rawText ∧ msg.line = parsed.line ∧ msg.fragmentIndex = 0 ∧
          ("vertex".data <:+: (U.string_tolower msg.rawText).data →
            msg.filePath = vertex.fileSource) ∧
          (¬ "vertex".data <:+: (U.string_tolower msg.rawText).data →
            msg.filePath = pixel.fileSource) := by
  obtain ⟨geometryId, hlink⟩ :=
    gl_link_shaders_linked U env heap spVertex spPixel spGeometry vertex pixel hv hvs hp hps hg
      hbuf
  have hmsgs := link_result_messages U env vertex pixel geometryId hlog
  refine ⟨(link_result U env vertex pixel geometryId).1, _, _, hlink, by simp, ?_, ?_⟩
  · rw [hmsgs, List.length_map]
  · intro k parsed hk
    refine ⟨attributeMessage U vertex.fileSource pixel.fileSource parsed, ?_, ?_⟩
    · rw [hmsgs, List.getElem?_map, hk]
      rfl
    · have hzero : parsed.fragmentIndex = 0 := by
        rw [compile_parse_shader_errors_eq] at hk
        simp only [List.nil_append] at hk
        rw [List.getElem?_map] at hk
        cases hline : (U.string_split env.infoLog "\n")[k]? with
        | none => rw [hline] at hk; cases hk
        | some error =>
          rw [hline] at hk
          injection hk with hk
          rw [← hk]
          exact (parse_message_frame U _ error).2
      unfold attributeMessage
      simp only []
      by_cases hfind : (find (U.string_tolower parsed.rawText) "vertex" 0).isSome = true
      · have hin := (find_isSome_iff_substring _ _).mp hfind
        rw [if_pos hfind]
        exact ⟨rfl, rfl, hzero, fun _ => rfl, fun hnot => absurd hin hnot⟩
      · have hin : ¬ "vertex".data <:+: (U.string_tolower parsed.rawText).data :=
          fun h => hfind ((find_isSome_iff_substring _ _).mpr h)
        rw [if_neg hfind]
        exact ⟨rfl, rfl, hzero, fun h => absurd h hin, fun _ => rfl⟩

theorem link_attribution_witness :
    ∃ (result : GLCompileResult) (after : Heap) (trace : List GLCall),
      gl_link_shaders refUtils sampleLinkEnv sampleHeap 0 none 1
        = some (sampleHeap.length, after, trace) ∧
      after[sampleHeap.length]? = some result ∧
      result.messages.length
        = (compile_parse_shader_errors refUtils { fileSource := "quad.vert" }
            sampleLinkEnv.infoLog).messages.length ∧
      ∀ (k : Nat) (parsed : CompileMessage),
        (compile_parse_shader_errors refUtils { fileSource := "quad.vert" }
            sampleLinkEnv.infoLog).messages[k]? = some parsed →
        ∃ msg, result.messages[k]? = some msg ∧
          msg.rawText = parsed.rawText ∧ msg.line = parsed.line ∧ msg.fragmentIndex = 0 ∧
          ("vertex".data <:+: (refUtils.string_tolower msg.rawText).data →
            msg.filePath = "quad.vert") ∧
          (¬ "vertex".data <:+: (refUtils.string_tolower msg.rawText).data →
            msg.filePath = "quad.frag") :=
  link_attribution refUtils sampleLinkEnv sampleHeap 0 1 none
    { fileSource := "quad.vert", state := CompileState.Valid, Id := 3 }
    { fileSource := "quad.frag", state := CompileState.Valid, Id := 4 }
    rfl rfl rfl rfl (Or.inl rfl) (by decide) (by decide)

/-! ## The rejection message -/

/-- C14 (contents of the rejection message). For the stage kinds Unknown and Compute the only
message of the result is the one the constructor `CompileMessage(type, path)` builds from the
literal: the literal is the `filePath`, the `text` is `Unknown issue compiling: ` followed by
the literal, `line = 0`, `fragmentIndex = 0`, the range is `(-1, -1)` and the severity is
Error. -/
theorem rejection_message (U : StringUtils) (env : CompileEnv) (pkg : ShaderPackage) :
    (gl_compile_shader U env ShaderType.Unknown pkg).1.messages
      = [{ rawText := "",
           text := "Unknown issue compiling: Shader type could not be determined.  Missing #shadertype tag?",
           filePath := "Shader type could not be determined.  Missing #shadertype tag?",
           line := 0, fragmentIndex := 0, range := (-1, -1),
           msgType := CompileMessageType.Error }] ∧
    (gl_compile_shader U env ShaderType.Compute pkg).1.messages
      = [{ rawText := "",
           text := "Unknown issue compiling: Shader type not supported yet",
           filePath := "Shader type not supported yet",
           line := 0, fragmentIndex := 0, range := (-1, -1),
           msgType := CompileMessageType.Error }] ∧
    (gl_compile_shader U env ShaderType.Unknown pkg).1.messages
      = [CompileMessage.ofPath CompileMessageType.Error
          "Shader type could not be determined.  Missing #shadertype tag?"] ∧
    (gl_compile_shader U env ShaderType.Compute pkg).1.messages
      = [CompileMessage.ofPath CompileMessageType.Error "Shader type not supported yet"] := by
  refine ⟨?_, ?_, rfl, rfl⟩
  · show [CompileMessage.ofPath CompileMessageType.Error
          "Shader type could not be determined.  Missing #shadertype tag?"] = _
    decide
  · show [CompileMessage.ofPath CompileMessageType.Error "Shader type not supported yet"] = _
    decide

/-! ## The render loop: one frame -/

/-- The set-up leaves the write index and the frame counter alone and issues no clear, no
bind and no resize. -/
theorem shader_window_init_frame (U : StringUtils) (env : InitEnv) (s : RenderState) :
    (shader_window_init U env s).1.currentFBO = s.currentFBO ∧
    (shader_window_init U env s).1.renderCount = s.renderCount ∧
    (shader_window_init U env s).2.contains RenderCall.fbo_clear = false ∧
    (shader_window_init U env s).2.findSome? (fun call =>
        match call with
        | RenderCall.fbo_bind position => some position
        | _ => none) = none ∧
    (shader_window_init U env s).2.findSome? (fun call =>
        match call with
        | RenderCall.fbo_bind_texture position _ => some position
        | _ => none) = none := by
  unfold shader_window_init
  by_cases h : s.fbo0.fbo = 0
  · rw [if_pos h]
    exact ⟨rfl, rfl, rfl, rfl, rfl⟩
  · rw [if_neg h]
    exact ⟨rfl, rfl, rfl, rfl, rfl⟩

/-- Lines 184-241 on a frame that returns on line 186: nothing is changed or called. -/
theorem render_frame_early (env : FrameEnv) (s : RenderState) (calls : List RenderCall)
    (h : (render_frame env s calls).completed = false) :
    (render_frame env s calls).state = s ∧ (render_frame env s calls).calls = calls := by
  unfold render_frame at h ⊢
  by_cases hzero : (s.fboAt s.currentFBO).fbo = 0
  · rw [if_pos hzero]
    exact ⟨rfl, rfl⟩
  · rw [if_neg hzero] at h
    cases h

/-- Lines 184-241 on a frame that gets past line 186, with a write index that is 0 or 1. -/
theorem render_frame_completed (env : FrameEnv) (s : RenderState) (calls : List RenderCall)
    (hcur : s.currentFBO < 2) (h : (render_frame env s calls).completed = true)
    (hclear : calls.contains RenderCall.fbo_clear = false)
    (hbind : calls.findSome? (fun call =>
        match call with
        | RenderCall.fbo_bind position => some position
        | _ => none) = none)
    (htex : calls.findSome? (fun call =>
        match call with
        | RenderCall.fbo_bind_texture position _ => some position
        | _ => none) = none) :
    (render_frame env s calls).state.currentFBO = 1 - s.currentFBO ∧
    (render_frame env s calls).state.renderCount
      = (if s.renderCount < 2 then s.renderCount + 1 else s.renderCount) ∧
    (render_frame env s calls).clears = decide (s.renderCount < 2) ∧
    (render_frame env s calls).writeTarget = some s.currentFBO ∧
    (render_frame env s calls).readSource = some (1 - s.currentFBO) := by
  have hread : toUInt32 (1 - (s.currentFBO : Int)) = 1 - s.currentFBO := by
    unfold toUInt32
    omega
  have hzero : ¬ (s.fboAt s.currentFBO).fbo = 0 := by
    intro hz
    unfold render_frame at h
    rw [if_pos hz] at h
    cases h
  have hcases : s.currentFBO = 0 ∨ s.currentFBO = 1 := by omega
  have hclear : RenderCall.fbo_clear ∉ calls := by simpa using hclear
  unfold FrameResult.clears FrameResult.writeTarget FrameResult.readSource render_frame
  rw [if_neg hzero]
  by_cases hcount : s.renderCount < 2
  · have hmod : (s.renderCount + 1) % 2 ^ 32 = s.renderCount + 1 := by omega
    rcases hcases with h0 | h1
    · simp [h0, RenderState.setFbo, hcount, toUInt32, List.findSome?_append, hbind,
        htex, hclear]
      omega
    · simp [h1, RenderState.setFbo, hcount, toUInt32, List.findSome?_append, hbind,
        htex, hclear]
      omega
  · rcases hcases with h0 | h1
    · simp [h0, RenderState.setFbo, hcount, toUInt32, List.findSome?_append, hbind,
        htex, hclear]
    · simp [h1, RenderState.setFbo, hcount, toUInt32, List.findSome?_append, hbind,
        htex, hclear]

/-- A frame that returns on line 186: write index and counter are kept, nothing is cleared
and no framebuffer is bound. -/
theorem show_early (U : StringUtils) (env : FrameEnv) (s : RenderState)
    (h : (shader_window_show U env s).completed = false) :
    (shader_window_show U env s).state.currentFBO = s.currentFBO ∧
    (shader_window_show U env s).state.renderCount = s.renderCount ∧
    (shader_window_show U env s).clears = false ∧
    (shader_window_show U env s).writeTarget = none ∧
    (shader_window_show U env s).readSource = none := by
  obtain ⟨hc, hr, hclear, hbind, htex⟩ := shader_window_init_frame U env.init s
  unfold shader_window_show at h ⊢
  obtain ⟨hstate, hcalls⟩ := render_frame_early env _ _ h
  unfold FrameResult.clears FrameResult.writeTarget FrameResult.readSource
  rw [hstate, hcalls]
  exact ⟨hc, hr, hclear, hbind, htex⟩

/-- A frame that gets past line 186, entered with a write index that is 0 or 1: the write
target is the framebuffer at the write index, the read source the other one, the clear is
issued exactly when the counter is below 2, and the write index is flipped. -/
theorem show_completed (U : StringUtils) (env : FrameEnv) (s : RenderState)
    (hcur : s.currentFBO < 2) (h : (shader_window_show U env s).completed = true) :
    (shader_window_show U env s).state.currentFBO = 1 - s.currentFBO ∧
    (shader_window_show U env s).state.renderCount
      = (if s.renderCount < 2 then s.renderCount + 1 else s.renderCount) ∧
    (shader_window_show U env s).clears = decide (s.renderCount < 2) ∧
    (shader_window_show U env s).writeTarget = some s.currentFBO ∧
    (shader_window_show U env s).readSource = some (1 - s.currentFBO) := by
  obtain ⟨hc, hr, hclear, hbind, htex⟩ := shader_window_init_frame U env.init s
  unfold shader_window_show at h ⊢
  have hframe := render_frame_completed env _ _ (by rw [hc]; exact hcur) h hclear hbind htex
  rw [hc, hr] at hframe
  exact hframe
/-- The function `shader_window_close` leaves every file-scope variable as it was, so it adds
no state to those reached by `shader_window_show`. -/
theorem shader_window_close_state (s : RenderState) : (shader_window_close s).1 = s :=
  rfl

/-! ## The render loop: runs -/

/-- The clears of a concrete run: one frame without framebuffers, then four completed
frames. -/
theorem sample_run_clears :
    (frames refUtils initialState
        [failingFrameEnv, sampleFrameEnv, sampleFrameEnv, sampleFrameEnv,
         sampleFrameEnv]).map (fun frame => (frame.completed, frame.clears))
      = [(false, false), (true, true), (true, true), (true, false), (true, false)] := by
  decide

/-- Runs entered after `c` completed frames, with the write index at `c mod 2`: the index
stays 0 or 1, every completed frame writes the framebuffer at the index of its number and
reads the other one, and the index after the run is that of the number of completed
frames. -/
theorem frames_roles (U : StringUtils) :
    ∀ (envs : List FrameEnv) (s : RenderState) (c : Nat),
      s.currentFBO = c % 2 →
      (stateAfter U s envs).currentFBO
        = (c + (completedFrames (frames U s envs)).length) % 2 ∧
      (completedFrames (frames U s envs)).map FrameResult.writeTarget
        = (List.range (completedFrames (frames U s envs)).length).map
            (fun n => some ((c + n) % 2)) ∧
      (completedFrames (frames U s envs)).map FrameResult.readSource
        = (List.range (completedFrames (frames U s envs)).length).map
            (fun n => some ((c + n + 1) % 2)) := by
  intro envs
  induction envs with
  | nil =>
    intro s c hcur
    simp [frames, completedFrames, stateAfter, hcur]
  | cons env rest ih =>
    intro s c hcur
    have hstate : stateAfter U s (env :: rest)
        = stateAfter U (shader_window_show U env s).state rest := rfl
    cases hdone : (shader_window_show U env s).completed with
    | false =>
      obtain ⟨hc, _, _, _, _⟩ := show_early U env s hdone
      have hfilter : completedFrames (frames U s (env :: rest))
          = completedFrames (frames U (shader_window_show U env s).state rest) := by
        simp [frames, completedFrames, hdone]
      rw [hfilter, hstate]
      exact ih (shader_window_show U env s).state c (by rw [hc]; exact hcur)
    | true =>
      have hlt : s.currentFBO < 2 := by omega
      obtain ⟨hc, _, _, hwrite, hread⟩ := show_completed U env s hlt hdone
      obtain ⟨ih1, ih2, ih3⟩ := ih (shader_window_show U env s).state (c + 1)
        (by rw [hc]; omega)
      have hfilter : completedFrames (frames U s (env :: rest))
          = shader_window_show U env s ::
              completedFrames (frames U (shader_window_show U env s).state rest) := by
        simp [frames, completedFrames, hdone]
      rw [hfilter, hstate]
      refine ⟨?_, ?_, ?_⟩
      · rw [ih1, List.length_cons]
        congr 1
        omega
      · rw [List.map_cons, List.length_cons, List.range_succ_eq_map, List.map_cons,
          List.map_map, ih2, hwrite, hcur]
        congr 1
        apply List.map_congr_left
        intro n _
        simp only [Function.comp_apply, Option.some.injEq]
        omega
      · rw [List.map_cons, List.length_cons, List.range_succ_eq_map, List.map_cons,
          List.map_map, ih3, hread, hcur]
        congr 1
        · simp only [Nat.add_zero, Option.some.injEq]
          omega
        · apply List.map_congr_left
          intro n _
          simp only [Function.comp_apply, Option.some.injEq]
          omega

/-- C12 (ping-pong roles). After every run of `shader_window_show` from the initial state
the write index `currentFBO` is 0 or 1, the read index `1 - currentFBO` (computed on
`uint32_t`) is the other one of the two, and `currentFBO` is the number of completed frames
modulo 2. The completed frame number `n` (from 0) binds framebuffer `n mod 2` for writing
and the texture of framebuffer `(n + 1) mod 2` for sampling, so the read source of a frame
is the write target of the frame before. A frame that returns early binds nothing and leaves
`currentFBO` as it was. -/
theorem ping_pong_roles (U : StringUtils) (envs : List FrameEnv) :
    (stateAfter U initialState envs).currentFBO < 2 ∧
    toUInt32 (1 - ((stateAfter U initialState envs).currentFBO : Int))
      = 1 - (stateAfter U initialState envs).currentFBO ∧
    1 - (stateAfter U initialState envs).currentFBO
      ≠ (stateAfter U initialState envs).currentFBO ∧
    (stateAfter U initialState envs).currentFBO
      = (completedFrames (frames U initialState envs)).length % 2 ∧
    (completedFrames (frames U initialState envs)).map FrameResult.writeTarget
      = (List.range (completedFrames (frames U initialState envs)).length).map
          (fun n => some (n % 2)) ∧
    (completedFrames (frames U initialState envs)).map FrameResult.readSource
      = (List.range (completedFrames (frames U initialState envs)).length).map
          (fun n => some ((n + 1) % 2)) ∧
    (∀ env : FrameEnv,
      (shader_window_show U env (stateAfter U initialState envs)).completed = false →
      (shader_window_show U env (stateAfter U initialState envs)).state.currentFBO
        = (stateAfter U initialState envs).currentFBO ∧
      (shader_window_show U env (stateAfter U initialState envs)).writeTarget = none ∧
      (shader_window_show U env (stateAfter U initialState envs)).readSource = none) ∧
    (∀ env : FrameEnv,
      (shader_window_show U env (stateAfter U initialState envs)).completed = true →
      (shader_window_show U env (stateAfter U initialState envs)).state.currentFBO
        = 1 - (stateAfter U initialState envs).currentFBO ∧
      (shader_window_show U env (stateAfter U initialState envs)).writeTarget
        = some (stateAfter U initialState envs).currentFBO ∧
      (shader_window_show U env (stateAfter U initialState envs)).readSource
        = some (1 - (stateAfter U initialState envs).currentFBO)) := by
  obtain ⟨h1, h2, h3⟩ := frames_roles U envs initialState 0 rfl
  simp only [Nat.zero_add] at h1 h2 h3
  have hlt : (stateAfter U initialState envs).currentFBO < 2 := by
    rw [h1]
    exact Nat.mod_lt _ (by decide)
  refine ⟨hlt, ?_, ?_, h1, h2, h3, ?_, ?_⟩
  · unfold toUInt32
    omega
  · omega
  · intro env hearly
    obtain ⟨hc, _, _, hw, hr⟩ := show_early U env _ hearly
    exact ⟨hc, hw, hr⟩
  · intro env hdone
    obtain ⟨hc, _, _, hw, hr⟩ := show_completed U env _ hlt hdone
    exact ⟨hc, hw, hr⟩

theorem ping_pong_roles_witness :
    (shader_window_show refUtils failingFrameEnv
        (stateAfter refUtils initialState [])).completed = false ∧
    ((shader_window_show refUtils failingFrameEnv
        (stateAfter refUtils initialState [])).state.currentFBO
        = (stateAfter refUtils initialState []).currentFBO ∧
      (shader_window_show refUtils failingFrameEnv
        (stateAfter refUtils initialState [])).writeTarget = none ∧
      (shader_window_show refUtils failingFrameEnv
        (stateAfter refUtils initialState [])).readSource = none) ∧
    (shader_window_show refUtils sampleFrameEnv
        (stateAfter refUtils initialState [sampleFrameEnv])).completed = true ∧
    ((shader_window_show refUtils sampleFrameEnv
        (stateAfter refUtils initialState [sampleFrameEnv])).state.currentFBO
        = 1 - (stateAfter refUtils initialState [sampleFrameEnv]).currentFBO ∧
      (shader_window_show refUtils sampleFrameEnv
        (stateAfter refUtils initialState [sampleFrameEnv])).writeTarget
        = some (stateAfter refUtils initialState [sampleFrameEnv]).currentFBO ∧
      (shader_window_show refUtils sampleFrameEnv
        (stateAfter refUtils initialState [sampleFrameEnv])).readSource
        = some (1 - (stateAfter refUtils initialState [sampleFrameEnv]).currentFBO)) :=
  ⟨by decide,
   (ping_pong_roles refUtils []).2.2.2.2.2.2.1 failingFrameEnv (by decide),
   by decide,
   (ping_pong_roles refUtils [sampleFrameEnv]).2.2.2.2.2.2.2 sampleFrameEnv (by decide)⟩

/-- The roles in a concrete run: one frame without framebuffers, then four completed
frames. -/
theorem sample_run_roles :
    (frames refUtils initialState
        [failingFrameEnv, sampleFrameEnv, sampleFrameEnv, sampleFrameEnv,
         sampleFrameEnv]).map
        (fun frame => (frame.writeTarget, frame.readSource, frame.state.currentFBO))
      = [(none, none, 0), (some 0, some 1, 1), (some 1, some 0, 0), (some 0, some 1, 1),
         (some 1, some 0, 0)] := by
  decide

/-! ## The render loop: the first frame -/

/-- C13 (no uninitialized sampling), the frame that breaks it. The first call of
`shader_window_show` with a backend that creates the framebuffers is a completed frame: it
resizes, binds and clears `fbo[0]` only, and binds the texture of `fbo[1]` as sampler input.
No call of the frame, and so no call since program start, has resized, bound or cleared
`fbo[1]`: it was created a moment before by `fbo_create`, which allocates no storage. -/
theorem first_frame_samples_unprimed (U : StringUtils) (env : FrameEnv) (name : Nat) :
    (shader_window_show U (withFramebuffer env name) initialState).completed = true ∧
    (shader_window_show U (withFramebuffer env name) initialState).writeTarget = some 0 ∧
    (shader_window_show U (withFramebuffer env name) initialState).readSource = some 1 ∧
    RenderCall.fbo_create 1 ∈
      (shader_window_show U (withFramebuffer env name) initialState).calls ∧
    RenderCall.fbo_bind_texture 1 0 ∈
      (shader_window_show U (withFramebuffer env name) initialState).calls ∧
    RenderCall.fbo_bind 1 ∉
      (shader_window_show U (withFramebuffer env name) initialState).calls ∧
    (∀ size, RenderCall.fbo_resize 1 size ∉
      (shader_window_show U (withFramebuffer env name) initialState).calls) ∧
    (shader_window_show refUtils sampleFrameEnv initialState).calls
      = [RenderCall.fbo_create 0, RenderCall.fbo_create 1,
         RenderCall.compile ShaderType.Pixel, RenderCall.compile ShaderType.Vertex,
         RenderCall.link, RenderCall.setupProgram 3, RenderCall.setupVertexArray,
         RenderCall.fbo_resize 0 ⟨640, 480⟩, RenderCall.fbo_bind 0,
         RenderCall.fbo_bind_texture 1 0, RenderCall.fbo_clear,
         RenderCall.glBindVertexArray 1, RenderCall.glUseProgram 3,
         RenderCall.setUniforms ⟨640, 480⟩, RenderCall.glDrawArrays,
         RenderCall.glBindVertexArray 0, RenderCall.glUseProgram 0,
         RenderCall.fbo_unbind 0 ⟨640, 480⟩, RenderCall.fbo_unbind_texture 1 0,
         RenderCall.AddImage 0] := by
  have hdone : (shader_window_show U (withFramebuffer env name) initialState).completed
      = true := by
    simp [shader_window_show, shader_window_init, render_frame, initialState,
      withFramebuffer, RenderState.fboAt, fbo_create]
  obtain ⟨_, _, _, hw, hr⟩ :=
    show_completed U (withFramebuffer env name) initialState (by decide) hdone
  refine ⟨hdone, hw, hr, ?_, ?_, ?_, ?_, by decide⟩
  · simp [shader_window_show, shader_window_init, render_frame, initialState,
      withFramebuffer, RenderState.fboAt, fbo_create]
  · simp [shader_window_show, shader_window_init, render_frame, initialState,
      withFramebuffer, RenderState.fboAt, RenderState.setFbo, fbo_create, toUInt32]
  · simp [shader_window_show, shader_window_init, render_frame, initialState,
      withFramebuffer, RenderState.fboAt, RenderState.setFbo, fbo_create, toUInt32]
  · intro size
    simp [shader_window_show, shader_window_init, render_frame, initialState,
      withFramebuffer, RenderState.fboAt, RenderState.setFbo, fbo_create, toUInt32]

/-! ## The fix-up loop beyond the range of `int32_t` -/

theorem newlineCount_replicate (n : Nat) :
    newlineCount (String.mk (List.replicate n '\n')) = n := by
  unfold newlineCount
  rw [List.countP_replicate]
  rfl

theorem newlineCount_hugeSource : newlineCount hugeSource = 2 ^ 31 :=
  newlineCount_replicate (2 ^ 31)

theorem lineCounts_pair (name1 source1 name2 source2 : String) :
    lineCounts [⟨name1, source1⟩, ⟨name2, source2⟩]
      = [newlineCount source1 % 2 ^ 32, newlineCount source2 % 2 ^ 32] :=
  rfl

/-- The counts of `hugePackage`, without building its text. -/
theorem hugePackage_counts :
    lineCounts hugePackage.fragments = [1, 2 ^ 31] ∧
    fragOffset hugePackage 1 = 1 ∧ fragCount hugePackage 1 = 2 ^ 31 := by
  have h1 : newlineCount "\n" = 1 := rfl
  have hmod1 : 1 % 2 ^ 32 = 1 := by norm_num
  have hmod2 : 2 ^ 31 % 2 ^ 32 = 2 ^ 31 := by norm_num
  have hfrags : hugePackage.fragments = [⟨"head", "\n"⟩, ⟨"body", hugeSource⟩] := rfl
  refine ⟨?_, ?_, ?_⟩
  · rw [hfrags, lineCounts_pair, newlineCount_hugeSource, h1, hmod1, hmod2]
  · simp only [fragOffset, hugePackage, List.take_succ_cons, List.take_zero, List.map_cons,
      List.map_nil, List.sum_cons, List.sum_nil]
    exact h1
  · simp only [fragCount, hugePackage, List.getElem?_cons_succ, List.getElem?_cons_zero,
      newlineCount_hugeSource]

/-- C1, an input on which the claim as first stated fails. In `hugePackage` the parsed line
`L = 1` lies in the range of fragment 1 (`offset(1) = 1`, `count(1) = 2^31`), but in the loop
of lines 188-198 the sum `count + lastCount = 2^31 + 1` converts to a negative `int32_t`, so
no branch is taken: the message keeps `fragmentIndex = 0` and `line = 1` instead of getting
fragment 1 and line 0. -/
theorem remap_overflow :
    (compile_parse_shader_errors refUtils { fileSource := hugePackage.path }
        (sampleCompileEnv "2").infoLog).messages.map (fun m => m.line) = [1] ∧
    ((fragOffset hugePackage 1 : Nat) : Int) ≤ 1 ∧
    (1 : Int) < ((fragOffset hugePackage 1 + fragCount hugePackage 1 : Nat) : Int) ∧
    (gl_compile_shader refUtils (sampleCompileEnv "2") ShaderType.Vertex
        hugePackage).1.messages.map (fun m => (m.fragmentIndex, m.line)) = [(0, 1)] ∧
    (gl_compile_shader refUtils (sampleCompileEnv "2") ShaderType.Vertex
        hugePackage).1.messages.map (fun m => (m.fragmentIndex, m.line))
      ≠ [(1, 1 - ((fragOffset hugePackage 1 : Nat) : Int))] := by
  obtain ⟨hcounts, hoff, hcnt⟩ := hugePackage_counts
  have hfrags : hugePackage.fragments ≠ [] := by
    intro h
    have hlen : (lineCounts hugePackage.fragments).length = 0 := by rw [h]; rfl
    rw [hcounts] at hlen
    cases hlen
  have hpath : hugePackage.path = "shader.glsl" := rfl
  have hmessages : (gl_compile_shader refUtils (sampleCompileEnv "2") ShaderType.Vertex
        hugePackage).1.messages.map (fun m => (m.fragmentIndex, m.line)) = [(0, 1)] := by
    rw [gl_compile_shader_messages refUtils (sampleCompileEnv "2") ShaderType.Vertex hugePackage
      (Or.inl rfl) hfrags (by decide) (by decide), hcounts, hpath]
    decide
  refine ⟨?_, ?_, ?_, hmessages, ?_⟩
  · rw [hpath]
    decide
  · rw [hoff]
    decide
  · rw [hoff, hcnt]
    norm_num
  · rw [hmessages, hoff]
    decide

/-! ## The parser at `INT_MIN` -/

/-- C6, an input on which the claim as first stated fails. The diagnostic
`shader.glsl(-2147483648): error` has the form `path(n): message` and its
number converts (`std::stoi` returns `INT_MIN`), but `n - 1` is not an `int`: with the
two's complement wrap the stored line is `INT_MAX`, not `max(0, n - 1) = 0`. -/
theorem location_overflow :
    find_first_of "shader.glsl(-2147483648): error" '(' = some 11 ∧
    find "shader.glsl(-2147483648): error" ")" 11 = some 23 ∧
    numVecOf refUtils "shader.glsl(-2147483648): error" 11 23 = ["-2147483648"] ∧
    numbersConvert refUtils ["-2147483648"] = true ∧
    stoi "-2147483648" = some (-2147483648) ∧
    (parse_message refUtils "quad.frag" "shader.glsl(-2147483648): error").line
      = 2147483647 ∧
    (parse_message refUtils "quad.frag" "shader.glsl(-2147483648): error").line
      ≠ max 0 (-2147483648 - 1) := by
  decide

end SonicPi
